import Mathlib

/-!
# Violence-detection browser client

A shallow embedding of the two front-end controllers:

* `static/js/live_detection.js`  : the live session controller (namespace `Live`);
* `static/js/upload_detection.js`: the upload analysis controller (namespace `Upload`).

JavaScript numbers are rationals and `Math.round` is rounding half up.  In the
live controller confidences are taken as exact rationals; in the upload
controller, whose time labels and report percents are printed digit by digit,
every number is the binary64 value `toDouble` gives and products and quotients are
rounded by `toDouble` as the machine rounds them.  Module-level variables and the
DOM properties the handlers assign are fields of an explicit state record, and
every handler is a function from state to state.
-/

namespace ViolenceDetection

/-- `Math.round`: the nearest integer, halves going up. -/
def mathRound (x : Rat) : Int := Rat.floor (x + 1 / 2)

/-- The nearest integer, halves going to the even neighbour. -/
def roundHalfEven (q : Rat) : Int :=
  let f := Rat.floor q
  let r := q - f
  if r < 1 / 2 then f
  else if 1 / 2 < r then f + 1
  else if f % 2 = 0 then f else f + 1

/-- The position of the leading binary digit of `n`, found in at most `fuel` halvings. -/
def log2Fuel : Nat → Nat → Nat
  | 0, _ => 0
  | fuel + 1, n => if n < 2 then 0 else log2Fuel fuel (n / 2) + 1

/-- The position of the leading binary digit of `n`: `2 ^ natLog2 n ≤ n < 2 ^ (natLog2 n + 1)`
for `n ≥ 1`. -/
def natLog2 (n : Nat) : Nat := log2Fuel n n

/-- The binary exponent `e` of a non-zero rational: `2 ^ e ≤ |x| < 2 ^ (e + 1)`. -/
def binaryExponent (x : Rat) : Int :=
  let e0 : Int := (natLog2 x.num.natAbs : Int) - (natLog2 x.den : Int)
  if (2 : Rat) ^ e0 ≤ |x| then e0 else e0 - 1

/-- The binary64 number nearest to `x` (53 significant bits, ties to even): the value
a JavaScript number takes when a decimal is read or an arithmetic result is
rounded.  Overflow and subnormal numbers are outside the range used here. -/
def toDouble (x : Rat) : Rat :=
  if x = 0 then 0
  else
    let ulp : Rat := 2 ^ (binaryExponent x - 52)
    roundHalfEven (x / ulp) * ulp

namespace Live

/-! ## Alert level -/

/-- The four texts `updateAlertLevel` writes into `alertLevel.textContent`. -/
inductive AlertLevel where
  | Critical
  | High
  | Medium
  | Low
  deriving DecidableEq, Repr

/-- The style classes used by the live view (`danger`, `warning`, `safe`). -/
inductive StyleClass where
  | danger
  | warning
  | safe
  deriving DecidableEq, Repr

/-- The `(level, className)` pair chosen by the `if` cascade of `updateAlertLevel`. -/
def alertLevelOf (confidence : Int) (isViolent : Bool) : AlertLevel × StyleClass :=
  if isViolent && decide (confidence > 80) then (AlertLevel.Critical, StyleClass.danger)
  else if isViolent && decide (confidence > 60) then (AlertLevel.High, StyleClass.danger)
  else if confidence > 40 then (AlertLevel.Medium, StyleClass.warning)
  else (AlertLevel.Low, StyleClass.safe)

/-! ## Rolling confidence chart -/

/-- The `confidenceChart` object: its data series and its capacity. -/
structure ConfidenceChart where
  data : List Rat
  maxDataPoints : Nat
  deriving DecidableEq, Repr

/-- The chart built by `initializeChart`: empty series, capacity 50. -/
def initializeChart : ConfidenceChart := { data := [], maxDataPoints := 50 }

/-- `confidenceChart.update`: push, then `shift` when the series is over capacity
(`draw` only paints the canvas). -/
def ConfidenceChart.update (chart : ConfidenceChart) (confidence : Rat) : ConfidenceChart :=
  let pushed := chart.data ++ [confidence]
  if pushed.length > chart.maxDataPoints then { chart with data := pushed.tail }
  else { chart with data := pushed }

/-! ## Detection log -/

/-- One element of `data.results` as the client reads it. -/
structure DetectionResult where
  confidence : Rat
  is_violent : Bool
  timestamp : Nat
  deriving DecidableEq, Repr

/-- What a `.log-item` element shows: the danger/safe flag, the rounded percent and
the timestamp handed to the page's `formatTimestamp`. -/
structure LogItem where
  is_violent : Bool
  confidence : Int
  timestamp : Nat
  deriving DecidableEq, Repr

/-- A child of the `detection-log` element: the `.log-empty` placeholder or a
`.log-item`. -/
inductive LogNode where
  | logEmpty
  | logItem (item : LogItem)
  deriving DecidableEq, Repr

/-- The element `addToDetectionLog` creates for a result. -/
def logItemOf (result : DetectionResult) : LogItem :=
  { is_violent := result.is_violent
    confidence := mathRound (result.confidence * 100)
    timestamp := result.timestamp }

/-- Selector `.log-item`. -/
def LogNode.isLogItem : LogNode → Bool
  | LogNode.logItem _ => true
  | LogNode.logEmpty => false

/-- Removes the last node matching `.log-item` (`items[items.length - 1].remove()`). -/
def removeLastLogItem (nodes : List LogNode) : List LogNode :=
  (nodes.reverse.eraseP LogNode.isLogItem).reverse

/-- `addToDetectionLog` on the children of the log element. -/
def addToDetectionLog (log : List LogNode) (result : DetectionResult) : List LogNode :=
  -- querySelector('.log-empty') finds the first placeholder, which is removed
  let cleared := log.erase LogNode.logEmpty
  -- insertBefore(logItem, firstChild)
  let inserted := LogNode.logItem (logItemOf result) :: cleared
  -- querySelectorAll('.log-item')
  let items := inserted.filter LogNode.isLogItem
  if items.length > 20 then removeLastLogItem inserted else inserted

/-! ## Controller state -/

/-- Values of `style.display` the script assigns (`unset` before any assignment). -/
inductive Display where
  | unset
  | none
  | flex
  | inlineFlex
  | block
  deriving DecidableEq, Repr

/-- The two states `updateStatusIndicator` is called with (`'idle'`, `'active'`). -/
inductive StatusIndicator where
  | idle
  | active
  deriving DecidableEq, Repr

/-- The notification kinds passed to `showNotification`. -/
inductive NotificationKind where
  | success
  | error
  | info
  deriving DecidableEq, Repr

/-- One call of `showNotification(message, kind)`. -/
structure Notification where
  message : String
  kind : NotificationKind
  deriving DecidableEq, Repr

/-- The JSON body of `/get_live_results`; a field the response lacks is `none`. -/
structure PollData where
  results : Option (List DetectionResult)
  total_detections : Option Nat
  deriving DecidableEq, Repr

/-- The live controller: the module variables, the DOM properties the script
writes, and the browser's pending work (requests in flight, timers, clock). -/
structure LiveState where
  -- module variables
  isDetectionActive : Bool
  sessionStartTime : Option Nat
  /-- Whether `sessionTimer` holds an interval handle. -/
  sessionTimer : Bool
  confidenceChart : ConfidenceChart
  detectionResultsBuffer : List DetectionResult
  totalDetections : Nat
  -- DOM
  startBtnDisplay : Display
  stopBtnDisplay : Display
  videoFeedDisplay : Display
  videoPlaceholderDisplay : Display
  videoFeedSrc : String
  statusIndicator : StatusIndicator
  currentStatusText : String
  currentStatusClass : StyleClass
  /-- The percent shown in `confidence-value`. -/
  confidenceValue : Int
  totalDetectionsSpan : Nat
  /-- Elapsed seconds shown in `session-duration` (rendered by `formatTime`). -/
  sessionDuration : Nat
  alertLevel : AlertLevel
  alertLevelClass : StyleClass
  detectionLog : List LogNode
  alertOverlayDisplay : Display
  notifications : List Notification
  -- browser
  /-- Milliseconds on the wall clock (`Date.now()`). -/
  now : Nat
  /-- Number of `setInterval` timers not yet cleared. -/
  runningIntervals : Nat
  /-- Number of `/get_live_results` requests awaiting their response. -/
  pollsInFlight : Nat
  /-- Due times of the pending `setTimeout(startResultsPolling, _)` calls. -/
  pollTimers : List Nat
  /-- Due times of the pending auto-dismiss timeouts of `showViolenceAlert`. -/
  alertTimers : List Nat
  deriving DecidableEq, Repr

/-- `showNotification(message, kind)`. -/
def showNotification (s : LiveState) (message : String) (kind : NotificationKind) : LiveState :=
  { s with notifications := s.notifications ++ [{ message := message, kind := kind }] }

/-- `updateAlertLevel`: writes the chosen level and class into the `alert-level` element. -/
def updateAlertLevel (s : LiveState) (confidence : Int) (isViolent : Bool) : LiveState :=
  { s with
    alertLevel := (alertLevelOf confidence isViolent).1
    alertLevelClass := (alertLevelOf confidence isViolent).2 }

/-- `dismissAlert`. -/
def dismissAlert (s : LiveState) : LiveState :=
  { s with alertOverlayDisplay := Display.none }

/-- `showViolenceAlert`: shows the overlay and arms a 10 s timeout. -/
def showViolenceAlert (s : LiveState) : LiveState :=
  { s with
    alertOverlayDisplay := Display.flex
    alertTimers := s.alertTimers ++ [s.now + 10000] }

/-- The callback of the timeout armed by `showViolenceAlert`. -/
def alertTimeout (s : LiveState) : LiveState :=
  if s.alertOverlayDisplay = Display.flex then dismissAlert s else s

/-- `startSessionTimer`: a new interval whose handle is stored in `sessionTimer`. -/
def startSessionTimer (s : LiveState) : LiveState :=
  { s with sessionTimer := true, runningIntervals := s.runningIntervals + 1 }

/-- `stopSessionTimer`. -/
def stopSessionTimer (s : LiveState) : LiveState :=
  if s.sessionTimer then
    { s with sessionTimer := false, runningIntervals := s.runningIntervals - 1 }
  else s

/-- The callback of the session interval; `if (sessionStartTime)` fails on `null`
and on 0. -/
def sessionTick (s : LiveState) : LiveState :=
  match s.sessionStartTime with
  | some t0 => if t0 = 0 then s else { s with sessionDuration := (s.now - t0) / 1000 }
  | none => s

/-- `updateDetectionResults`. -/
def updateDetectionResults (s : LiveState) (data : PollData) : LiveState :=
  match data.results with
  | none => s
  | some results =>
    match results.getLast? with
    | none => s
    | some latestResult =>
      let s1 := { s with confidenceChart := s.confidenceChart.update latestResult.confidence }
      let isViolent := latestResult.is_violent
      let confidence := mathRound (latestResult.confidence * 100)
      let s2 := { s1 with
        currentStatusText := if isViolent then "Violence Detected" else "Safe"
        currentStatusClass := if isViolent then StyleClass.danger else StyleClass.safe
        confidenceValue := confidence }
      let s3 := { s2 with
        totalDetections := data.total_detections.getD 0
        totalDetectionsSpan := data.total_detections.getD 0 }
      let s4 := updateAlertLevel s3 confidence isViolent
      let s5 := { s4 with detectionLog := addToDetectionLog s4.detectionLog latestResult }
      if isViolent && decide (latestResult.confidence > 8 / 10) then showViolenceAlert s5 else s5

/-- `startResultsPolling`: issues one `/get_live_results` request while active. -/
def startResultsPolling (s : LiveState) : LiveState :=
  if !s.isDetectionActive then s
  else { s with pollsInFlight := s.pollsInFlight + 1 }

/-- The `.then` handler of the poll: ingest, then re-arm after 500 ms if still active. -/
def pollSucceeded (s : LiveState) (data : PollData) : LiveState :=
  let s1 := updateDetectionResults s data
  if s1.isDetectionActive then { s1 with pollTimers := s1.pollTimers ++ [s1.now + 500] }
  else s1

/-- The `.catch` handler of the poll: re-arm after 2000 ms if still active. -/
def pollFailed (s : LiveState) : LiveState :=
  if s.isDetectionActive then { s with pollTimers := s.pollTimers ++ [s.now + 2000] }
  else s

/-- `startDetection` once its awaits have settled: `ok` is false when the camera
permission is refused, the response is not 2xx or the request fails. -/
def startDetection (s : LiveState) (ok : Bool) : LiveState :=
  if ok then
    let s1 := { s with
      isDetectionActive := true
      sessionStartTime := some s.now
      totalDetections := 0
      detectionResultsBuffer := [] }
    let s2 := { s1 with
      startBtnDisplay := Display.none
      stopBtnDisplay := Display.inlineFlex
      videoPlaceholderDisplay := Display.none
      videoFeedDisplay := Display.block
      videoFeedSrc := "/video_feed"
      statusIndicator := StatusIndicator.active }
    let s3 := startSessionTimer s2
    let s4 := startResultsPolling s3
    showNotification s4 "Live detection started successfully!" NotificationKind.success
  else
    showNotification s "Failed to start detection. Please check camera permissions."
      NotificationKind.error

/-- `stopDetection` once its await has settled: `ok` is false when the response is
not 2xx or the request fails. -/
def stopDetection (s : LiveState) (ok : Bool) : LiveState :=
  if ok then
    let s1 := { s with isDetectionActive := false }
    let s2 := { s1 with
      startBtnDisplay := Display.inlineFlex
      stopBtnDisplay := Display.none
      videoFeedDisplay := Display.none
      videoPlaceholderDisplay := Display.flex
      videoFeedSrc := ""
      statusIndicator := StatusIndicator.idle }
    let s3 := stopSessionTimer s2
    let s4 := { s3 with
      currentStatusText := "Safe"
      currentStatusClass := StyleClass.safe
      confidenceValue := 0 }
    showNotification s4 "Live detection stopped" NotificationKind.info
  else
    showNotification s "Error stopping detection" NotificationKind.error

/-- `updateUIElements`. -/
def updateUIElements (s : LiveState) : LiveState :=
  { s with
    stopBtnDisplay := Display.none
    videoFeedDisplay := Display.none
    alertOverlayDisplay := Display.none
    statusIndicator := StatusIndicator.idle }

/-- The state once the script has loaded over the page `markup`: module variables
at their initial values, `initializeChart` and `updateUIElements` run, nothing
pending in the browser. -/
def pageLoad (markup : LiveState) : LiveState :=
  updateUIElements { markup with
    isDetectionActive := false
    sessionStartTime := none
    sessionTimer := false
    confidenceChart := initializeChart
    detectionResultsBuffer := []
    totalDetections := 0
    notifications := []
    runningIntervals := 0
    pollsInFlight := 0
    pollTimers := []
    alertTimers := [] }

/-- A page whose log holds only the empty-state placeholder. -/
def blankPage : LiveState :=
  { isDetectionActive := false, sessionStartTime := none, sessionTimer := false
    confidenceChart := initializeChart, detectionResultsBuffer := [], totalDetections := 0
    startBtnDisplay := Display.unset, stopBtnDisplay := Display.unset
    videoFeedDisplay := Display.unset, videoPlaceholderDisplay := Display.unset
    videoFeedSrc := "", statusIndicator := StatusIndicator.idle
    currentStatusText := "Safe", currentStatusClass := StyleClass.safe
    confidenceValue := 0, totalDetectionsSpan := 0, sessionDuration := 0
    alertLevel := AlertLevel.Low, alertLevelClass := StyleClass.safe
    detectionLog := [LogNode.logEmpty], alertOverlayDisplay := Display.unset
    notifications := [], now := 0, runningIntervals := 0, pollsInFlight := 0
    pollTimers := [], alertTimers := [] }

/-- What can happen to the live controller between two turns of the event loop. -/
inductive LiveEvent where
  /-- The awaits of a `startDetection` call settle. -/
  | startSettled (ok : Bool)
  /-- The await of a `stopDetection` call settles. -/
  | stopSettled (ok : Bool)
  /-- A poll in flight resolves with a parsed body. -/
  | pollResponse (data : PollData)
  /-- A poll in flight is rejected, or its body cannot be parsed or ingested. -/
  | pollError
  /-- The pending poll timeout due at `due` fires. -/
  | pollTimer (due : Nat)
  /-- The pending alert timeout due at `due` fires. -/
  | alertTimer (due : Nat)
  /-- The acknowledge button is clicked. -/
  | acknowledge
  /-- The session interval fires. -/
  | intervalTick
  /-- Time passes. -/
  | advance (ms : Nat)
  deriving DecidableEq, Repr

/-- One turn of the event loop; `none` when the event cannot happen in `s`
(no poll in flight to resolve, no such timer pending or not yet due). -/
def step (s : LiveState) : LiveEvent → Option LiveState
  | LiveEvent.startSettled ok => some (startDetection s ok)
  | LiveEvent.stopSettled ok => some (stopDetection s ok)
  | LiveEvent.pollResponse data =>
    if 0 < s.pollsInFlight then
      some (pollSucceeded { s with pollsInFlight := s.pollsInFlight - 1 } data)
    else none
  | LiveEvent.pollError =>
    if 0 < s.pollsInFlight then
      some (pollFailed { s with pollsInFlight := s.pollsInFlight - 1 })
    else none
  | LiveEvent.pollTimer due =>
    if due ∈ s.pollTimers ∧ due ≤ s.now then
      some (startResultsPolling { s with pollTimers := s.pollTimers.erase due })
    else none
  | LiveEvent.alertTimer due =>
    if due ∈ s.alertTimers ∧ due ≤ s.now then
      some (alertTimeout { s with alertTimers := s.alertTimers.erase due })
    else none
  | LiveEvent.acknowledge => some (dismissAlert s)
  | LiveEvent.intervalTick =>
    if 0 < s.runningIntervals then some (sessionTick s) else none
  | LiveEvent.advance ms => some { s with now := s.now + ms }

/-- Runs a sequence of events from `s`. -/
def run (s : LiveState) : List LiveEvent → Option LiveState
  | [] => some s
  | e :: es => (step s e).bind (fun s1 => run s1 es)

/-- Polls in flight plus polls scheduled. -/
def LiveState.outstandingPolls (s : LiveState) : Nat :=
  s.pollsInFlight + s.pollTimers.length

/-- Along the events `es` run from `s`, every start that succeeds does so in a state
with no poll in flight or scheduled. -/
def quietStarts (s : LiveState) : List LiveEvent → Bool
  | [] => true
  | e :: es =>
    (decide (e ≠ LiveEvent.startSettled true) || decide (s.outstandingPolls = 0))
      && (match step s e with
          | none => true
          | some s1 => quietStarts s1 es)

/-- How the awaits of `startDetection` end: the camera permission is refused, the
start request gets a response that is not 2xx, the request fails in transport, or
the request is accepted. -/
inductive StartAttempt where
  | permissionRefused
  | responseNotOk
  | transportError
  | accepted
  deriving DecidableEq, Repr

/-- Whether `startDetection` gets past its `throw` and its rejected awaits. -/
def StartAttempt.succeeds : StartAttempt → Bool
  | StartAttempt.accepted => true
  | _ => false

end Live

namespace Upload

/-! ## Strings -/

/-- `haystack.includes(needle)` on character lists. -/
def includesChars : List Char → List Char → Bool
  | [], needle => needle.isEmpty
  | c :: cs, needle => needle.isPrefixOf (c :: cs) || includesChars cs needle

/-- `haystack.includes(needle)`. -/
def includes (haystack needle : String) : Bool :=
  includesChars haystack.data needle.data

/-- `type.split('/')[1]` for a string holding a slash: what stands between the
first slash and the next one (or the end). -/
def splitSlashSecond (type : String) : String :=
  String.mk (((type.data.dropWhile (fun c => c != '/')).drop 1).takeWhile (fun c => c != '/'))

/-- Lower-casing of the ASCII letters; agrees with `toLowerCase` on ASCII names. -/
def asciiLowerCase (s : String) : String :=
  String.mk (s.data.map Char.toLower)

/-! ## Data -/

/-- A browser `File` as the script reads it. -/
structure File where
  name : String
  type : String
  size : Nat
  deriving DecidableEq, Repr

/-- One element of `frame_results`. -/
structure FrameResult where
  frame : Nat
  timestamp : Rat
  is_violent : Bool
  confidence : Rat
  deriving DecidableEq, Repr

/-- The `results` object of a successful `/upload_video` response; `frame_results`
is `none` when the response lacks it. -/
structure AnalysisResult where
  total_frames : Nat
  analyzed_frames : Nat
  violent_frames : Nat
  violence_percentage : Rat
  is_violent_video : Bool
  frame_results : Option (List FrameResult)
  deriving DecidableEq, Repr

/-- The notification kinds passed to `showNotification`. -/
inductive NotificationKind where
  | success
  | error
  | info
  deriving DecidableEq, Repr

/-- One call of `showNotification(message, kind)`. -/
structure Notification where
  message : String
  kind : NotificationKind
  deriving DecidableEq, Repr

/-- The three formats of `exportReport`. -/
inductive ExportFormat where
  | json
  | csv
  | pdf
  deriving DecidableEq, Repr

/-- The upload controller: the module variables, the DOM properties the script
writes, and the browser's pending work. -/
structure UploadState where
  -- module variables
  selectedFile : Option File
  analysisResults : Option AnalysisResult
  isAnalyzing : Bool
  -- DOM
  videoInputValue : String
  fileNameText : String
  /-- The byte count shown in `file-size` (rendered by `formatFileSize`). -/
  fileSizeBytes : Nat
  /-- Whether `upload-area` has `display: block` (otherwise `none`). -/
  uploadAreaShown : Bool
  fileInfoHidden : Bool
  progressSectionHidden : Bool
  analysisResultsHidden : Bool
  errorSectionHidden : Bool
  errorMessage : String
  analyzeBtnDisabled : Bool
  /-- Whether the analyze button reads `Analyzing...` (otherwise `Start Analysis`). -/
  analyzeBtnBusy : Bool
  /-- The result last rendered into the results section by `showAnalysisResults`. -/
  renderedResults : Option AnalysisResult
  /-- The width of `progress-fill`, in percent. -/
  progressFill : Rat
  progressText : String
  notifications : List Notification
  -- browser
  /-- The local `progress` of every `animateProgress` interval not yet cleared. -/
  progressIntervals : List Rat
  /-- Number of `/upload_video` requests awaiting their response. -/
  uploadsInFlight : Nat
  /-- Every file submitted to `/upload_video` so far, oldest first. -/
  submissions : List File
  /-- Every report handed to `downloadFile` so far, oldest first. -/
  downloads : List ExportFormat
  deriving DecidableEq, Repr

/-- `showNotification(message, kind)`. -/
def showNotification (s : UploadState) (message : String) (kind : NotificationKind) :
    UploadState :=
  { s with notifications := s.notifications ++ [{ message := message, kind := kind }] }

/-- `hideAllSections`. -/
def hideAllSections (s : UploadState) : UploadState :=
  { s with
    progressSectionHidden := true
    analysisResultsHidden := true
    errorSectionHidden := true }

/-- `showFileInfo`. -/
def showFileInfo (s : UploadState) (file : File) : UploadState :=
  hideAllSections { s with
    fileNameText := file.name
    fileSizeBytes := file.size
    uploadAreaShown := false
    fileInfoHidden := false }

/-- The `allowedTypes` array of `handleFileSelect`. -/
def allowedTypes : List String :=
  ["video/mp4", "video/avi", "video/mov", "video/wmv", "video/quicktime"]

/-- The test `allowedTypes.some(...)` of `handleFileSelect`; `toLowerCase` is the
string method of that name. -/
def typeAllowed (toLowerCase : String → String) (file : File) : Bool :=
  allowedTypes.any (fun type =>
    includes file.type (splitSlashSecond type)
      || includes (toLowerCase file.name) (splitSlashSecond type))

/-- The `maxSize` of `handleFileSelect`: 100 MiB. -/
def maxSize : Nat := 100 * 1024 * 1024

/-- `handleFileSelect`; `file` is `e.target.files[0]`, `none` when the list is empty. -/
def handleFileSelect (toLowerCase : String → String) (s : UploadState) (file : Option File) :
    UploadState :=
  match file with
  | none => s
  | some file =>
    if !typeAllowed toLowerCase file then
      showNotification s "Please select a valid video file (MP4, AVI, MOV, WMV)"
        NotificationKind.error
    else if file.size > maxSize then
      showNotification s "File size must be less than 100MB" NotificationKind.error
    else
      showFileInfo { s with selectedFile := some file } file

/-- `removeFile`. -/
def removeFile (s : UploadState) : UploadState :=
  hideAllSections { s with
    selectedFile := none
    videoInputValue := ""
    uploadAreaShown := true
    fileInfoHidden := true }

/-- `animateProgress`: a new interval with its own `progress` at 0. -/
def animateProgress (s : UploadState) : UploadState :=
  { s with progressIntervals := s.progressIntervals ++ [0] }

/-- The `messages` array of `animateProgress`. -/
def progressMessages : List String :=
  ["Uploading video...", "Extracting frames...", "Analyzing motion patterns...",
   "Detecting violence indicators...", "Processing results...", "Finalizing analysis..."]

/-- One firing of the `i`-th `animateProgress` interval, `random` being the value
of `Math.random()`. -/
def progressTick (s : UploadState) (i : Nat) (random : Rat) : UploadState :=
  match s.progressIntervals.get? i with
  | none => s
  | some progress0 =>
    let progress1 := progress0 + random * 15
    let progress := if progress1 > 95 then 95 else progress1
    let messageIndex := (Rat.floor (progress / 100 * progressMessages.length)).toNat
    let s1 := { s with
      progressIntervals := s.progressIntervals.set i progress
      progressFill := progress
      progressText :=
        if messageIndex < progressMessages.length then progressMessages.getD messageIndex ""
        else s.progressText }
    if !s1.isAnalyzing then
      { s1 with
        progressIntervals := s1.progressIntervals.eraseIdx i
        progressFill := 100
        progressText := "Analysis complete" }
    else s1

/-- `analyzeVideo` up to its `await fetch(...)`. -/
def analyzeVideo (s : UploadState) : UploadState :=
  match s.selectedFile with
  | none => s
  | some file =>
    if s.isAnalyzing then s
    else
      let s1 := { s with isAnalyzing := true }
      let s2 := hideAllSections { s1 with progressSectionHidden := false }
      let s3 := { s2 with analyzeBtnDisabled := true, analyzeBtnBusy := true }
      let s4 := animateProgress s3
      { s4 with
        uploadsInFlight := s4.uploadsInFlight + 1
        submissions := s4.submissions ++ [file] }

/-- How an `/upload_video` request ends: a body with `success: true` and its
`results`, or any failure with the message of the error thrown. -/
inductive UploadOutcome where
  | success (results : AnalysisResult)
  | failure (message : String)
  deriving DecidableEq, Repr

/-- `showAnalysisResults`. -/
def showAnalysisResults (s : UploadState) (results : AnalysisResult) : UploadState :=
  { hideAllSections s with analysisResultsHidden := false, renderedResults := some results }

/-- `showAnalysisError`. -/
def showAnalysisError (s : UploadState) (message : String) : UploadState :=
  { hideAllSections s with errorSectionHidden := false, errorMessage := message }

/-- `analyzeVideo` from the settling of its request to its end (`try` tail, `catch`,
`finally`). -/
def analyzeVideoSettled (s : UploadState) (outcome : UploadOutcome) : UploadState :=
  let s1 :=
    match outcome with
    | UploadOutcome.success results =>
      showNotification (showAnalysisResults { s with analysisResults := some results } results)
        "Video analysis completed successfully!" NotificationKind.success
    | UploadOutcome.failure message =>
      showNotification (showAnalysisError s message) ("Analysis failed: " ++ message)
        NotificationKind.error
  { s1 with
    isAnalyzing := false
    progressSectionHidden := true
    analyzeBtnDisabled := false
    analyzeBtnBusy := false }

/-- `retryAnalysis`. -/
def retryAnalysis (s : UploadState) : UploadState :=
  if s.selectedFile.isSome then analyzeVideo s else s

/-- `resetUI`. -/
def resetUI (s : UploadState) : UploadState :=
  { hideAllSections s with
    fileInfoHidden := true
    uploadAreaShown := true
    videoInputValue := ""
    selectedFile := none
    analysisResults := none }

/-- `exportReport`, keeping of the export which format was downloaded. -/
def exportReport (s : UploadState) (format : ExportFormat) : UploadState :=
  match s.analysisResults with
  | none => showNotification s "No analysis results to export" NotificationKind.error
  | some _ =>
    let s1 := { s with downloads := s.downloads ++ [format] }
    match format with
    | ExportFormat.json => showNotification s1 "JSON report exported successfully"
        NotificationKind.success
    | ExportFormat.csv => showNotification s1 "CSV report exported successfully"
        NotificationKind.success
    | ExportFormat.pdf => showNotification s1 "Text report exported successfully"
        NotificationKind.success

/-- The state once the script has loaded over the page `markup`: module variables
at their initial values, `resetUI` run, nothing pending in the browser. -/
def pageLoad (markup : UploadState) : UploadState :=
  resetUI { markup with
    selectedFile := none
    analysisResults := none
    isAnalyzing := false
    notifications := []
    progressIntervals := []
    uploadsInFlight := 0
    submissions := []
    downloads := [] }

/-- A page with empty texts. -/
def blankPage : UploadState :=
  { selectedFile := none, analysisResults := none, isAnalyzing := false
    videoInputValue := "", fileNameText := "", fileSizeBytes := 0
    uploadAreaShown := true, fileInfoHidden := true, progressSectionHidden := true
    analysisResultsHidden := true, errorSectionHidden := true, errorMessage := ""
    analyzeBtnDisabled := false, analyzeBtnBusy := false, renderedResults := none
    progressFill := 0, progressText := "", notifications := []
    progressIntervals := [], uploadsInFlight := 0, submissions := [], downloads := [] }

/-- What can happen to the upload controller between two turns of the event loop. -/
inductive UploadEvent where
  /-- A file is chosen or dropped (`none`: the file list is empty). -/
  | fileSelect (file : Option File)
  /-- The remove button is clicked. -/
  | removeClick
  /-- The analyze button is clicked. -/
  | analyzeClick
  /-- The retry button is clicked. -/
  | retryClick
  /-- An export button is clicked. -/
  | exportClick (format : ExportFormat)
  /-- An upload request in flight settles. -/
  | uploadSettled (outcome : UploadOutcome)
  /-- The `i`-th progress interval fires and `Math.random()` gives `random`. -/
  | progressTimer (i : Nat) (random : Rat)
  deriving DecidableEq, Repr

/-- One turn of the event loop; `none` when the event cannot happen in `s`. -/
def step (toLowerCase : String → String) (s : UploadState) : UploadEvent → Option UploadState
  | UploadEvent.fileSelect file => some (handleFileSelect toLowerCase s file)
  | UploadEvent.removeClick => some (removeFile s)
  | UploadEvent.analyzeClick => some (analyzeVideo s)
  | UploadEvent.retryClick => some (retryAnalysis s)
  | UploadEvent.exportClick format => some (exportReport s format)
  | UploadEvent.uploadSettled outcome =>
    if 0 < s.uploadsInFlight then
      some (analyzeVideoSettled { s with uploadsInFlight := s.uploadsInFlight - 1 } outcome)
    else none
  | UploadEvent.progressTimer i random =>
    if i < s.progressIntervals.length ∧ 0 ≤ random ∧ random < 1 then
      some (progressTick s i random)
    else none

/-- Runs a sequence of events from `s`. -/
def run (toLowerCase : String → String) (s : UploadState) :
    List UploadEvent → Option UploadState
  | [] => some s
  | e :: es => (step toLowerCase s e).bind (fun s1 => run toLowerCase s1 es)

/-! ## CSV export -/

/-- The text of a boolean inside a template literal. -/
def boolToString (b : Bool) : String := if b then "true" else "false"

/-- The blob content built by `exportAsCsv`; `numberToString` is the conversion a
template literal applies to a number. -/
def exportAsCsv (numberToString : Rat → String) (analysisResults : AnalysisResult) : String :=
  let csvContent := "Frame,Timestamp,Is_Violent,Confidence\n"
  match analysisResults.frame_results with
  | none => csvContent
  | some frames =>
    frames.foldl (fun csvContent frame =>
      csvContent ++ (numberToString frame.frame ++ "," ++ numberToString frame.timestamp ++ ","
        ++ boolToString frame.is_violent ++ "," ++ numberToString frame.confidence ++ "\n"))
      csvContent

/-- The spec's CSV header line. -/
def csvHeaderLine : String := "Frame,Timestamp,Is_Violent,Confidence"

/-- The spec's CSV row of a frame result: its four values joined by commas, nothing
quoted or escaped. -/
def csvRowLine (numberToString : Rat → String) (frame : FrameResult) : String :=
  String.intercalate ","
    [numberToString frame.frame, numberToString frame.timestamp,
     boolToString frame.is_violent, numberToString frame.confidence]

/-- A text made of lines, each ended by a newline. -/
def joinLines : List String → String
  | [] => ""
  | line :: rest => line ++ "\n" ++ joinLines rest

/-- The digits after the point of a fraction in `[0, 1)`, at most `fuel` of them,
stopping when nothing is left. -/
def fractionDigits : Nat → Rat → List Char
  | 0, _ => []
  | fuel + 1, q =>
    if q = 0 then []
    else
      let d := (Rat.floor (q * 10)).toNat
      Nat.digitChar d :: fractionDigits fuel (q * 10 - d)

/-- Decimal text of a non-negative rational with a short finite expansion, as a
template literal prints such a number: `0` gives `0`, `1/10` gives `0.1`. -/
def decimalString (q : Rat) : String :=
  let whole := (Rat.floor q).toNat
  let fraction := q - whole
  if fraction = 0 then String.mk (Nat.toDigits 10 whole)
  else String.mk (Nat.toDigits 10 whole ++ '.' :: fractionDigits 17 fraction)

/-! ## Time labels -/

/-- `n.toString()` for a natural number: its decimal digits (what JavaScript prints
for an integer below 2^53). -/
def natToString (n : Nat) : String := String.mk (Nat.toDigits 10 n)

/-- `i.toString()` for an integer: a minus sign before the digits of a negative one. -/
def intToString : Int → String
  | Int.ofNat n => natToString n
  | Int.negSucc n => "-" ++ natToString (n + 1)

/-- `s.padStart(targetLength, pad)` for a one-character `pad`. -/
def padStart (s : String) (targetLength : Nat) (pad : Char) : String :=
  String.mk (List.replicate (targetLength - s.data.length) pad ++ s.data)

/-- `formatTime` on an integer-valued number of seconds: `Math.floor` of the
binary64 quotient `seconds / 60`, and the remainder `seconds % 60`, which is exact
and takes the sign of `seconds`. -/
def formatTime (seconds : Int) : String :=
  let minutes := Rat.floor (toDouble ((seconds : Rat) / 60))
  let remainingSeconds := Int.tmod seconds 60
  padStart (intToString minutes) 2 '0' ++ ":" ++ padStart (intToString remainingSeconds) 2 '0'

/-- The number written by a list of decimal digits. -/
def ofDigitChars (digits : List Char) : Nat :=
  digits.foldl (fun value c => 10 * value + (c.toNat - 48)) 0

/-- Reads a label `M:S` back as `60 * M + S`. -/
def parseTime (label : String) : Nat :=
  60 * ofDigitChars (label.data.takeWhile (fun c => c != ':'))
    + ofDigitChars ((label.data.dropWhile (fun c => c != ':')).drop 1)

/-! ## Text and JSON export -/

/-- The blob content built by `exportAsPdf`.  `generated` is the text of
`new Date().toLocaleString()`; `formatFileSize` is the script's function of that
name, whose logarithm and `toFixed` are floating-point operations. -/
def exportAsPdf (generated : String) (formatFileSize : Nat → String)
    (selectedFile : Option File) (analysisResults : AnalysisResult) : String :=
  let pdfContent := "Violence Detection Report\n"
  let pdfContent := pdfContent ++ ("Generated: " ++ generated ++ "\n\n")
  let pdfContent := pdfContent ++ "File Information:\n"
  let pdfContent := pdfContent ++ ("- Name: "
    ++ (match selectedFile with
        | some file => if file.name = "" then "unknown" else file.name
        | none => "unknown") ++ "\n")
  let pdfContent := pdfContent ++ ("- Size: "
    ++ (match selectedFile with
        | some file => formatFileSize file.size
        | none => "unknown") ++ "\n\n")
  let pdfContent := pdfContent ++ "Analysis Results:\n"
  let pdfContent := pdfContent
    ++ ("- Total Frames: " ++ natToString analysisResults.total_frames ++ "\n")
  let pdfContent := pdfContent
    ++ ("- Analyzed Frames: " ++ natToString analysisResults.analyzed_frames ++ "\n")
  let pdfContent := pdfContent
    ++ ("- Violent Frames: " ++ natToString analysisResults.violent_frames ++ "\n")
  let pdfContent := pdfContent ++ ("- Violence Percentage: "
    ++ intToString (mathRound (toDouble analysisResults.violence_percentage)) ++ "%\n")
  let pdfContent := pdfContent ++ ("- Overall Verdict: "
    ++ (if analysisResults.is_violent_video then "Violence Detected" else "Safe") ++ "\n\n")
  match analysisResults.frame_results with
  | none => pdfContent
  | some frames =>
    if frames.length > 0 then
      frames.foldl (fun pdfContent frame =>
        let timestamp := formatTime (Rat.floor (toDouble frame.timestamp))
        let confidence := mathRound (toDouble (toDouble frame.confidence * 100))
        pdfContent ++ (timestamp ++ ": " ++ (if frame.is_violent then "Violence" else "Safe")
          ++ " (" ++ intToString confidence ++ "%)\n"))
        (pdfContent ++ "Frame-by-Frame Results:\n")
    else pdfContent

/-- The percent `exportAsPdf` prints for a confidence: `Math.round` of the binary64
product `confidence * 100`. -/
def roundedPercent (confidence : Rat) : Int :=
  mathRound (toDouble (toDouble confidence * 100))

/-- The report line of a frame result: `MM:SS: Violence (NN%)` or
`MM:SS: Safe (NN%)`, with `NN` the percent the code prints. -/
def pdfFrameLine (frame : FrameResult) : String :=
  formatTime (Rat.floor (toDouble frame.timestamp)) ++ ": "
    ++ (if frame.is_violent then "Violence" else "Safe")
    ++ " (" ++ intToString (roundedPercent frame.confidence) ++ "%)"

/-- The `analysis_info` object of the JSON report. -/
structure AnalysisInfo where
  file_name : String
  file_size : Nat
  analysis_date : String
  total_frames : Nat
  analyzed_frames : Nat
  violent_frames : Nat
  violence_percentage : Rat
  is_violent_video : Bool
  deriving DecidableEq, Repr

/-- The `reportData` object `exportAsJson` hands to `JSON.stringify`. -/
structure ReportData where
  analysis_info : AnalysisInfo
  frame_results : List FrameResult
  deriving DecidableEq, Repr

/-- The `reportData` built by `exportAsJson`; `analysisDate` is the text of
`new Date().toISOString()`. -/
def exportAsJson (analysisDate : String) (selectedFile : Option File)
    (analysisResults : AnalysisResult) : ReportData :=
  { analysis_info :=
      { file_name :=
          match selectedFile with
          | some file => if file.name = "" then "unknown" else file.name
          | none => "unknown"
        file_size :=
          match selectedFile with
          | some file => file.size
          | none => 0
        analysis_date := analysisDate
        total_frames := analysisResults.total_frames
        analyzed_frames := analysisResults.analyzed_frames
        violent_frames := analysisResults.violent_frames
        violence_percentage := analysisResults.violence_percentage
        is_violent_video := analysisResults.is_violent_video }
    frame_results :=
      match analysisResults.frame_results with
      | some frames => frames
      | none => [] }

/-- Reads an analysis result back from a report. -/
def ReportData.toAnalysisResult (report : ReportData) : AnalysisResult :=
  { total_frames := report.analysis_info.total_frames
    analyzed_frames := report.analysis_info.analyzed_frames
    violent_frames := report.analysis_info.violent_frames
    violence_percentage := report.analysis_info.violence_percentage
    is_violent_video := report.analysis_info.is_violent_video
    frame_results := some report.frame_results }

end Upload

/-! # Theorems -/

namespace Live

/-! ## Alert level -/

/-- C1: for every integer percent `p` and every flag `isViolent`, `updateAlertLevel`
writes Critical exactly when violent and `p > 80`, High exactly when violent and
`60 < p ≤ 80`, Medium exactly when `p > 40` and the result is not violent or
`p ≤ 60`, Low exactly when `p ≤ 40`; the level does not depend on the state it is
written into, and the boundary values give (80, violent) = High, (60, violent) =
Medium, (40, either) = Low, (81, not violent) = Medium. -/
theorem updateAlertLevel_threshold_table (s : LiveState) (p : Int) (isViolent : Bool) :
    ((updateAlertLevel s p isViolent).alertLevel = AlertLevel.Critical
        ↔ isViolent = true ∧ 80 < p)
    ∧ ((updateAlertLevel s p isViolent).alertLevel = AlertLevel.High
        ↔ isViolent = true ∧ 60 < p ∧ p ≤ 80)
    ∧ ((updateAlertLevel s p isViolent).alertLevel = AlertLevel.Medium
        ↔ 40 < p ∧ (isViolent = false ∨ p ≤ 60))
    ∧ ((updateAlertLevel s p isViolent).alertLevel = AlertLevel.Low ↔ p ≤ 40)
    ∧ (updateAlertLevel s p isViolent).alertLevel = (alertLevelOf p isViolent).1
    ∧ (updateAlertLevel s 80 true).alertLevel = AlertLevel.High
    ∧ (updateAlertLevel s 60 true).alertLevel = AlertLevel.Medium
    ∧ (updateAlertLevel s 40 true).alertLevel = AlertLevel.Low
    ∧ (updateAlertLevel s 40 false).alertLevel = AlertLevel.Low
    ∧ (updateAlertLevel s 81 false).alertLevel = AlertLevel.Medium := by
  refine ⟨?_, ?_, ?_, ?_, rfl, ?_, ?_, ?_, ?_, ?_⟩
  iterate 4
    cases isViolent <;> simp only [updateAlertLevel, alertLevelOf] <;> split_ifs <;>
      simp_all <;> try omega
  all_goals simp [updateAlertLevel, alertLevelOf]

/-! ## Rolling confidence chart -/

/-- After any pushes from the empty chart the series is the last 50 of them. -/
theorem foldl_update_eq (cs : List Rat) :
    cs.foldl ConfidenceChart.update initializeChart
      = { data := cs.drop (cs.length - 50), maxDataPoints := 50 } := by
  induction cs using List.reverseRecOn with
  | nil => rfl
  | append_singleton cs c ih =>
    rw [List.foldl_append, ih]
    simp only [List.foldl_cons, List.foldl_nil, ConfidenceChart.update, List.length_append,
      List.length_drop, List.length_singleton]
    by_cases h : 50 ≤ cs.length
    · have h1 : cs.length - (cs.length - 50) + 1 > 50 := by omega
      rw [if_pos h1]
      have h2 : cs.length + 1 - 50 = (cs.length - 50) + 1 := by omega
      rw [h2, ← List.drop_one, List.drop_append_of_le_length (by simp; omega), List.drop_drop,
        List.drop_append_of_le_length (by omega)]
    · have h1 : ¬ (cs.length - (cs.length - 50) + 1 > 50) := by omega
      rw [if_neg h1]
      have h2 : cs.length + 1 - 50 = 0 := by omega
      have h3 : cs.length - 50 = 0 := by omega
      rw [h2, h3]
      simp

/-- C4: after pushing the values `cs` one by one into the empty chart, the series
holds the last `min n 50` of them in push order, so its length is `min n 50` and
never above 50, and after 51 pushes exactly the first value pushed is gone. -/
theorem confidenceChart_update_rolling (cs : List Rat) :
    (cs.foldl ConfidenceChart.update initializeChart).data = cs.drop (cs.length - 50)
    ∧ (cs.foldl ConfidenceChart.update initializeChart).data.length = min cs.length 50
    ∧ (cs.foldl ConfidenceChart.update initializeChart).data.length ≤ 50
    ∧ (cs.length = 51 → (cs.foldl ConfidenceChart.update initializeChart).data = cs.tail) := by
  rw [foldl_update_eq]
  refine ⟨rfl, ?_, ?_, ?_⟩
  · simp only [List.length_drop]; omega
  · simp only [List.length_drop]; omega
  · intro h
    rw [h, List.drop_one]

/-- C4 at the pushes 0, 1, ..., 50: the series is 1, ..., 50. -/
theorem confidenceChart_update_rolling_witness :
    (List.map (fun n : Nat => (n : Rat)) (List.range 51)).length = 51
    ∧ ((List.map (fun n : Nat => (n : Rat)) (List.range 51)).foldl
          ConfidenceChart.update initializeChart).data
        = (List.map (fun n : Nat => (n : Rat)) (List.range 51)).tail :=
  ⟨by simp only [List.length_map, List.length_range],
   (confidenceChart_update_rolling _).2.2.2 (by simp only [List.length_map, List.length_range])⟩

/-! ## Detection log -/

/-- A log of items holds no placeholder to remove. -/
theorem erase_logEmpty_items (l : List LogItem) :
    (l.map LogNode.logItem).erase LogNode.logEmpty = l.map LogNode.logItem := by
  apply List.erase_of_not_mem
  simp

/-- Every node of a log of items matches the item selector. -/
theorem filter_isLogItem_items (l : List LogItem) :
    (l.map LogNode.logItem).filter LogNode.isLogItem = l.map LogNode.logItem := by
  rw [List.filter_eq_self]
  intro a ha
  obtain ⟨i, _, rfl⟩ := List.mem_map.1 ha
  rfl

/-- In a log of items the last item is the last node. -/
theorem removeLastLogItem_items (l : List LogItem) :
    removeLastLogItem (l.map LogNode.logItem) = (l.map LogNode.logItem).dropLast := by
  unfold removeLastLogItem
  induction l using List.reverseRecOn with
  | nil => rfl
  | append_singleton l a _ =>
    simp [List.eraseP_cons, LogNode.isLogItem]

/-- One insertion into a log of at most 20 items. -/
theorem addToDetectionLog_items (l : List LogItem) (h : l.length ≤ 20) (r : DetectionResult) :
    addToDetectionLog (l.map LogNode.logItem) r
      = ((logItemOf r :: l).take 20).map LogNode.logItem := by
  unfold addToDetectionLog
  simp only [erase_logEmpty_items]
  rw [← List.map_cons, filter_isLogItem_items, removeLastLogItem_items]
  simp only [List.length_map, List.length_cons]
  split_ifs with h1
  · have h2 : l.length = 20 := by omega
    rw [List.dropLast_eq_take, ← List.map_take]
    simp [h2]
  · rw [List.take_of_length_le (by simp; omega)]

/-- The log after at least one insertion. -/
theorem foldl_addToDetectionLog (rs : List DetectionResult) (r : DetectionResult) :
    (rs ++ [r]).foldl addToDetectionLog [LogNode.logEmpty]
      = (((rs ++ [r]).reverse.take 20).map logItemOf).map LogNode.logItem := by
  induction rs using List.reverseRecOn generalizing r with
  | nil => rfl
  | append_singleton rs r0 ih =>
    rw [List.foldl_append, ih, List.foldl_cons, List.foldl_nil, addToDetectionLog_items]
    · simp only [List.reverse_append, List.reverse_cons, List.reverse_nil, List.nil_append,
        List.singleton_append, List.cons_append, List.take_succ_cons, List.map_cons,
        ← List.map_take, List.take_take]
      simp
    · simp only [List.length_map, List.length_take]
      omega

/-- C5: after inserting the results `rs` one by one into a log holding only the
placeholder, the log is the placeholder alone when `rs` is empty and otherwise the
items of the last `min n 20` results, newest first; it holds `min n 20` items,
never more than 20 nodes, and the placeholder is present only before the first
insertion. -/
theorem addToDetectionLog_capped_newest_first (rs : List DetectionResult) :
    rs.foldl addToDetectionLog [LogNode.logEmpty]
        = (if rs = [] then [LogNode.logEmpty]
           else ((rs.reverse.take 20).map logItemOf).map LogNode.logItem)
    ∧ ((rs.foldl addToDetectionLog [LogNode.logEmpty]).filter LogNode.isLogItem).length
        = min rs.length 20
    ∧ (rs.foldl addToDetectionLog [LogNode.logEmpty]).length ≤ 20
    ∧ (LogNode.logEmpty ∈ rs.foldl addToDetectionLog [LogNode.logEmpty] ↔ rs = []) := by
  rcases List.eq_nil_or_concat rs with h | ⟨l, a, h⟩
  · subst h
    simp [LogNode.isLogItem]
  · rw [List.concat_eq_append] at h
    subst h
    have hne : l ++ [a] ≠ [] := by simp
    rw [foldl_addToDetectionLog, filter_isLogItem_items, if_neg hne]
    refine ⟨rfl, ?_, ?_, ?_⟩
    · simp only [List.length_map, List.length_take, List.length_reverse]
      omega
    · simp only [List.length_map, List.length_take, List.length_reverse]
      omega
    · constructor
      · intro hmem
        obtain ⟨i, _, hi⟩ := List.mem_map.1 hmem
        cases hi
      · intro h
        exact absurd h hne

end Live

namespace Upload

/-! ## File acceptance -/

/-- `includesChars` decides the substring relation. -/
theorem includesChars_iff (haystack needle : List Char) :
    includesChars haystack needle = true ↔ needle <:+: haystack := by
  induction haystack with
  | nil =>
    simp [includesChars, List.isEmpty_iff]
  | cons c cs ih =>
    simp only [includesChars, Bool.or_eq_true, ih, List.isPrefixOf_iff_prefix,
      List.infix_cons_iff]

/-- `includes` decides the substring relation on strings. -/
theorem includes_iff (haystack needle : String) :
    includes haystack needle = true ↔ needle.data <:+: haystack.data :=
  includesChars_iff _ _

/-- The five strings the type test looks for. -/
theorem allowedTypes_second :
    allowedTypes.map splitSlashSecond = ["mp4", "avi", "mov", "wmv", "quicktime"] := by
  decide

/-- The type test passes exactly when the media type, or the lower-cased name, holds
one of the five strings. -/
theorem typeAllowed_iff (toLowerCase : String → String) (file : File) :
    typeAllowed toLowerCase file = true
      ↔ ∃ t ∈ ["mp4", "avi", "mov", "wmv", "quicktime"],
          t.data <:+: file.type.data ∨ t.data <:+: (toLowerCase file.name).data := by
  have h : typeAllowed toLowerCase file
      = (allowedTypes.map splitSlashSecond).any
          (fun t => includes file.type t || includes (toLowerCase file.name) t) := by
    rw [List.any_map]
    rfl
  rw [h, allowedTypes_second]
  simp only [List.any_eq_true, Bool.or_eq_true, includes_iff]

/-- C2, refuted as stated: a file named `clip.qt` of type `video/quicktime` and one
byte is staged although neither its type nor its name holds any of the four
strings mp4, avi, mov, wmv. -/
theorem handleFileSelect_stages_quicktime :
    (handleFileSelect asciiLowerCase blankPage
        (some { name := "clip.qt", type := "video/quicktime", size := 1 })).selectedFile
      = some { name := "clip.qt", type := "video/quicktime", size := 1 }
    ∧ ¬ ∃ t ∈ ["mp4", "avi", "mov", "wmv"],
        t.data <:+: "video/quicktime".data ∨ t.data <:+: "clip.qt".data := by
  refine ⟨by decide, ?_⟩
  simp only [← includes_iff]
  decide

/-- C2, amended: `handleFileSelect` stages the file when its media type, or its
lower-cased name, holds one of the five strings mp4, avi, mov, wmv, quicktime and
its size is at most 104857600 bytes; otherwise the staged file stays what it was.
A file of exactly 104857600 bytes and type `video/mp4` is staged. -/
theorem handleFileSelect_stages_iff (toLowerCase : String → String) (s : UploadState)
    (file : File) :
    (((∃ t ∈ ["mp4", "avi", "mov", "wmv", "quicktime"],
          t.data <:+: file.type.data ∨ t.data <:+: (toLowerCase file.name).data)
        ∧ file.size ≤ 104857600)
      → (handleFileSelect toLowerCase s (some file)).selectedFile = some file)
    ∧ (¬ ((∃ t ∈ ["mp4", "avi", "mov", "wmv", "quicktime"],
          t.data <:+: file.type.data ∨ t.data <:+: (toLowerCase file.name).data)
        ∧ file.size ≤ 104857600)
      → (handleFileSelect toLowerCase s (some file)).selectedFile = s.selectedFile)
    ∧ (handleFileSelect toLowerCase s
        (some { name := file.name, type := "video/mp4", size := 104857600 })).selectedFile
      = some { name := file.name, type := "video/mp4", size := 104857600 } := by
  rw [← typeAllowed_iff]
  refine ⟨?_, ?_, ?_⟩
  · rintro ⟨h1, h2⟩
    have h3 : ¬ file.size > maxSize := by simp only [maxSize]; omega
    simp [handleFileSelect, h1, h3, showFileInfo, hideAllSections]
  · intro h
    by_cases h1 : typeAllowed toLowerCase file = true
    · have h3 : file.size > maxSize := by
        simp only [maxSize]
        by_contra h4
        exact h ⟨h1, by omega⟩
      simp [handleFileSelect, h1, h3, showNotification]
    · simp [handleFileSelect, h1, showNotification]
  · have h1 : typeAllowed toLowerCase
        { name := file.name, type := "video/mp4", size := 104857600 } = true := by
      rw [typeAllowed_iff]
      exact ⟨"mp4", by simp, Or.inl ⟨"video/".data, [], rfl⟩⟩
    have h3 : ¬ (104857600 : Nat) > maxSize := by decide
    simp [handleFileSelect, h1, h3, showFileInfo, hideAllSections]

/-- C2, amended, at `movie.MP4` (accepted through its type) and at `doc.pdf`
(rejected: the staged file stays absent). -/
theorem handleFileSelect_stages_iff_witness :
    (handleFileSelect asciiLowerCase blankPage
        (some { name := "movie.MP4", type := "video/mp4", size := 135 })).selectedFile
      = some { name := "movie.MP4", type := "video/mp4", size := 135 }
    ∧ (handleFileSelect asciiLowerCase blankPage
        (some { name := "doc.pdf", type := "application/pdf", size := 135 })).selectedFile
      = blankPage.selectedFile :=
  ⟨(handleFileSelect_stages_iff asciiLowerCase blankPage
      { name := "movie.MP4", type := "video/mp4", size := 135 }).1
      ⟨⟨"mp4", by simp, Or.inl ⟨"video/".data, [], rfl⟩⟩, by decide⟩,
   (handleFileSelect_stages_iff asciiLowerCase blankPage
      { name := "doc.pdf", type := "application/pdf", size := 135 }).2.1
      (by
        rintro ⟨h, _⟩
        simp only [← includes_iff] at h
        revert h
        decide)⟩

/-- C3, refuted as stated: `clip.qt` of type `video/quicktime` and 200000000 bytes
holds none of the four strings mp4, avi, mov, wmv in its type or its name, yet it
gets the size error, not the type error. -/
theorem handleFileSelect_quicktime_size_error :
    handleFileSelect asciiLowerCase blankPage
        (some { name := "clip.qt", type := "video/quicktime", size := 200000000 })
      = { blankPage with notifications := blankPage.notifications ++
            [{ message := "File size must be less than 100MB",
               kind := NotificationKind.error }] }
    ∧ ¬ ∃ t ∈ ["mp4", "avi", "mov", "wmv"],
        t.data <:+: "video/quicktime".data ∨ t.data <:+: "clip.qt".data := by
  refine ⟨by decide, ?_⟩
  simp only [← includes_iff]
  decide

/-- C3, amended: a rejected file changes nothing but the notifications (the staged
file and the stored results stay as they were), and the first failing check
decides the error: a file whose type and lower-cased name hold none of the five
strings mp4, avi, mov, wmv, quicktime gets the type error whatever its size, a
file holding one of them and above 104857600 bytes gets the size error.  `movie.MP4` of
type `video/mp4` and 135 bytes is staged, the same at 101 MiB gets the size error,
`doc.pdf` of type `application/pdf` gets the type error. -/
theorem handleFileSelect_rejection (toLowerCase : String → String) (s : UploadState)
    (file : File) :
    ((¬ ∃ t ∈ ["mp4", "avi", "mov", "wmv", "quicktime"],
          t.data <:+: file.type.data ∨ t.data <:+: (toLowerCase file.name).data)
      → handleFileSelect toLowerCase s (some file)
          = { s with notifications := s.notifications ++
                [{ message := "Please select a valid video file (MP4, AVI, MOV, WMV)",
                   kind := NotificationKind.error }] })
    ∧ ((∃ t ∈ ["mp4", "avi", "mov", "wmv", "quicktime"],
          t.data <:+: file.type.data ∨ t.data <:+: (toLowerCase file.name).data)
      → 104857600 < file.size
      → handleFileSelect toLowerCase s (some file)
          = { s with notifications := s.notifications ++
                [{ message := "File size must be less than 100MB",
                   kind := NotificationKind.error }] })
    ∧ (handleFileSelect toLowerCase s
        (some { name := "movie.MP4", type := "video/mp4", size := 135 })).selectedFile
      = some { name := "movie.MP4", type := "video/mp4", size := 135 }
    ∧ handleFileSelect toLowerCase s
        (some { name := "movie.MP4", type := "video/mp4", size := 101 * 1024 * 1024 })
      = { s with notifications := s.notifications ++
            [{ message := "File size must be less than 100MB",
               kind := NotificationKind.error }] }
    ∧ handleFileSelect asciiLowerCase s
        (some { name := "doc.pdf", type := "application/pdf", size := file.size })
      = { s with notifications := s.notifications ++
            [{ message := "Please select a valid video file (MP4, AVI, MOV, WMV)",
               kind := NotificationKind.error }] } := by
  rw [← typeAllowed_iff]
  have hmp4 : ∀ n : Nat, typeAllowed toLowerCase
      { name := "movie.MP4", type := "video/mp4", size := n } = true := by
    intro n
    rw [typeAllowed_iff]
    exact ⟨"mp4", by simp, Or.inl ⟨"video/".data, [], rfl⟩⟩
  refine ⟨?_, ?_, ?_, ?_, ?_⟩
  · intro h
    simp [handleFileSelect, h, showNotification]
  · intro h1 h2
    have h3 : file.size > maxSize := by simp only [maxSize]; omega
    simp [handleFileSelect, h1, h3, showNotification]
  · have h3 : ¬ (135 : Nat) > maxSize := by decide
    simp [handleFileSelect, hmp4, h3, showFileInfo, hideAllSections]
  · have h3 : (101 * 1024 * 1024 : Nat) > maxSize := by decide
    simp [handleFileSelect, hmp4, h3, showNotification]
  · have h1 : typeAllowed asciiLowerCase
        { name := "doc.pdf", type := "application/pdf", size := file.size } = false := by
      rfl
    simp [handleFileSelect, h1, showNotification]

/-- C3, amended, at a blank page: `doc.pdf` matches none of the five strings and is refused
with the type error; `movie.MP4` at 101 MiB matches and is refused with the size
error. -/
theorem handleFileSelect_rejection_witness :
    handleFileSelect asciiLowerCase blankPage
        (some { name := "doc.pdf", type := "application/pdf", size := 2000 })
      = { blankPage with notifications := blankPage.notifications ++
            [{ message := "Please select a valid video file (MP4, AVI, MOV, WMV)",
               kind := NotificationKind.error }] }
    ∧ handleFileSelect asciiLowerCase blankPage
        (some { name := "movie.MP4", type := "video/mp4", size := 105906176 })
      = { blankPage with notifications := blankPage.notifications ++
            [{ message := "File size must be less than 100MB",
               kind := NotificationKind.error }] } :=
  ⟨(handleFileSelect_rejection asciiLowerCase blankPage
      { name := "doc.pdf", type := "application/pdf", size := 2000 }).1
      (by
        intro h
        simp only [← includes_iff] at h
        revert h
        decide),
   (handleFileSelect_rejection asciiLowerCase blankPage
      { name := "movie.MP4", type := "video/mp4", size := 105906176 }).2.1
      ⟨"mp4", by simp, Or.inl ⟨"video/".data, [], rfl⟩⟩ (by decide)⟩

end Upload

namespace Live

/-! ## Stopping -/

/-- C6, refuted as stated: in the Active state reached by a successful start, a
failed stop leaves the active flag set, the start button hidden, the session timer
running and the status Active. -/
theorem stopDetection_failure_stays_active :
    (startDetection (pageLoad blankPage) true).isDetectionActive = true
    ∧ (stopDetection (startDetection (pageLoad blankPage) true) false).isDetectionActive = true
    ∧ (stopDetection (startDetection (pageLoad blankPage) true) false).startBtnDisplay
        = Display.none
    ∧ (stopDetection (startDetection (pageLoad blankPage) true) false).sessionTimer = true
    ∧ (stopDetection (startDetection (pageLoad blankPage) true) false).runningIntervals = 1
    ∧ (stopDetection (startDetection (pageLoad blankPage) true) false).statusIndicator
        = StatusIndicator.active := by
  decide

/-- C6, amended: when the remote stop call succeeds, `stopDetection` clears the
active flag, shows the start button, hides the stop button, sets the status to
Idle, and clears the interval held in `sessionTimer`; when that interval is the
only one running (as after a single successful start) no interval is left and no
session tick can fire any more.  When the call fails it changes nothing but the
notifications, to which it adds the error. -/
theorem stopDetection_outcomes (s : LiveState) :
    (stopDetection s true).isDetectionActive = false
    ∧ (stopDetection s true).startBtnDisplay = Display.inlineFlex
    ∧ (stopDetection s true).stopBtnDisplay = Display.none
    ∧ (stopDetection s true).sessionTimer = false
    ∧ (stopDetection s true).runningIntervals
        = s.runningIntervals - (if s.sessionTimer then 1 else 0)
    ∧ (s.runningIntervals = (if s.sessionTimer then 1 else 0) →
        (stopDetection s true).runningIntervals = 0
        ∧ step (stopDetection s true) LiveEvent.intervalTick = none)
    ∧ (stopDetection s true).statusIndicator = StatusIndicator.idle
    ∧ (stopDetection s true).notifications
        = s.notifications ++ [{ message := "Live detection stopped",
                                kind := NotificationKind.info }]
    ∧ stopDetection s false
        = { s with notifications := s.notifications ++
              [{ message := "Error stopping detection", kind := NotificationKind.error }] } := by
  have hrun : (stopDetection s true).runningIntervals
      = s.runningIntervals - (if s.sessionTimer then 1 else 0) := by
    cases h : s.sessionTimer <;>
      simp [stopDetection, stopSessionTimer, showNotification, h]
  refine ⟨?_, ?_, ?_, ?_, hrun, ?_, ?_, ?_, ?_⟩
  · cases h : s.sessionTimer <;>
      simp [stopDetection, stopSessionTimer, showNotification, h]
  · cases h : s.sessionTimer <;>
      simp [stopDetection, stopSessionTimer, showNotification, h]
  · cases h : s.sessionTimer <;>
      simp [stopDetection, stopSessionTimer, showNotification, h]
  · cases h : s.sessionTimer <;>
      simp [stopDetection, stopSessionTimer, showNotification, h]
  · intro honly
    have h0 : (stopDetection s true).runningIntervals = 0 := by
      rw [hrun, honly]
      exact Nat.sub_self _
    refine ⟨h0, ?_⟩
    simp only [step, h0, Nat.lt_irrefl, if_false]
  · cases h : s.sessionTimer <;>
      simp [stopDetection, stopSessionTimer, showNotification, h]
  · cases h : s.sessionTimer <;>
      simp [stopDetection, stopSessionTimer, showNotification, h]
  · simp [stopDetection, showNotification]

/-- C6, amended, on the session started once from the freshly loaded page: its
session timer is the only interval, and after a successful stop none runs. -/
theorem stopDetection_outcomes_witness :
    (startDetection (pageLoad blankPage) true).runningIntervals
      = (if (startDetection (pageLoad blankPage) true).sessionTimer then 1 else 0)
    ∧ (stopDetection (startDetection (pageLoad blankPage) true) true).runningIntervals = 0
    ∧ step (stopDetection (startDetection (pageLoad blankPage) true) true)
        LiveEvent.intervalTick = none :=
  ⟨by decide,
   (stopDetection_outcomes (startDetection (pageLoad blankPage) true)).2.2.2.2.2.1 (by decide)⟩

/-! ## Result ingestion -/

/-- C9: a batch whose last element is `latest` is treated as the batch holding
`latest` alone: one push of its confidence into the chart, one log insertion for
it, the earlier elements ignored; a missing or empty `results` leaves the state
as it was. -/
theorem updateDetectionResults_latest_only (s : LiveState) (earlier : List DetectionResult)
    (latest : DetectionResult) (total : Option Nat) :
    updateDetectionResults s { results := some (earlier ++ [latest]), total_detections := total }
      = updateDetectionResults s { results := some [latest], total_detections := total }
    ∧ (updateDetectionResults s
          { results := some (earlier ++ [latest]), total_detections := total }).confidenceChart
        = s.confidenceChart.update latest.confidence
    ∧ (updateDetectionResults s
          { results := some (earlier ++ [latest]), total_detections := total }).detectionLog
        = addToDetectionLog s.detectionLog latest
    ∧ updateDetectionResults s { results := some [], total_detections := total } = s
    ∧ updateDetectionResults s { results := none, total_detections := total } = s := by
  have h : (earlier ++ [latest]).getLast? = some latest := by simp
  have h1 : [latest].getLast? = some latest := rfl
  refine ⟨?_, ?_, ?_, rfl, rfl⟩
  · unfold updateDetectionResults
    simp only [h, h1]
  · unfold updateDetectionResults
    simp only [h]
    split_ifs <;> rfl
  · unfold updateDetectionResults
    simp only [h]
    split_ifs <;> rfl

end Live

namespace Live

/-! ## Polling -/

/-- Ingesting a response touches neither the active flag nor the pending polls. -/
theorem updateDetectionResults_frame (s : LiveState) (data : PollData) :
    (updateDetectionResults s data).isDetectionActive = s.isDetectionActive
    ∧ (updateDetectionResults s data).pollsInFlight = s.pollsInFlight
    ∧ (updateDetectionResults s data).pollTimers = s.pollTimers := by
  unfold updateDetectionResults
  split
  · exact ⟨rfl, rfl, rfl⟩
  · split
    · exact ⟨rfl, rfl, rfl⟩
    · dsimp only
      split_ifs <;> exact ⟨rfl, rfl, rfl⟩

/-- Any event other than a successful start leaves no more polls outstanding than
before. -/
theorem step_outstandingPolls_le (s s1 : LiveState) (e : LiveEvent)
    (he : e ≠ LiveEvent.startSettled true) (h : step s e = some s1) :
    s1.outstandingPolls ≤ s.outstandingPolls := by
  cases e with
  | startSettled ok =>
    cases ok
    · simp only [step, startDetection, Option.some.injEq] at h
      subst h
      exact le_refl _
    · exact absurd rfl he
  | stopSettled ok =>
    simp only [step, Option.some.injEq] at h
    subst h
    cases ok
    · exact le_refl _
    · cases hs : s.sessionTimer <;>
        simp [stopDetection, stopSessionTimer, showNotification, hs,
          LiveState.outstandingPolls]
  | pollResponse data =>
    simp only [step] at h
    split_ifs at h with hp
    simp only [Option.some.injEq] at h
    subst h
    obtain ⟨ha, hf, ht⟩ :=
      updateDetectionResults_frame { s with pollsInFlight := s.pollsInFlight - 1 } data
    simp only [pollSucceeded, LiveState.outstandingPolls]
    split_ifs
    · simp only [List.length_append, List.length_singleton, hf, ht]
      omega
    · simp only [hf, ht]
      omega
  | pollError =>
    simp only [step] at h
    split_ifs at h with hp
    simp only [Option.some.injEq] at h
    subst h
    simp only [pollFailed, LiveState.outstandingPolls]
    split_ifs
    · simp only [List.length_append, List.length_singleton]
      omega
    · simp only
      omega
  | pollTimer due =>
    simp only [step] at h
    split_ifs at h with hp
    simp only [Option.some.injEq] at h
    subst h
    have hlen := List.length_erase_of_mem hp.1
    have hpos : 0 < s.pollTimers.length := List.length_pos_of_mem hp.1
    simp only [startResultsPolling, LiveState.outstandingPolls]
    split_ifs
    · simp only [hlen]
      omega
    · simp only [hlen]
      omega
  | alertTimer due =>
    simp only [step] at h
    split_ifs at h with hp
    simp only [Option.some.injEq] at h
    subst h
    simp only [alertTimeout, dismissAlert, LiveState.outstandingPolls]
    split_ifs <;> exact le_refl _
  | acknowledge =>
    simp only [step, Option.some.injEq] at h
    subst h
    exact le_refl _
  | intervalTick =>
    simp only [step] at h
    split_ifs at h with hp
    simp only [Option.some.injEq] at h
    subst h
    simp only [sessionTick, LiveState.outstandingPolls]
    split
    · split_ifs <;> exact le_refl _
    · exact le_refl _
  | advance ms =>
    simp only [step, Option.some.injEq] at h
    subst h
    exact le_refl _

/-- A successful start adds exactly one poll in flight. -/
theorem startDetection_outstandingPolls (s : LiveState) :
    (startDetection s true).outstandingPolls = s.outstandingPolls + 1 := by
  simp [startDetection, startSessionTimer, startResultsPolling, showNotification,
    LiveState.outstandingPolls]
  omega

/-- A run whose successful starts all happen with no poll outstanding, begun with
at most one poll outstanding, ends with at most one. -/
theorem run_quietStarts_le_one (es : List LiveEvent) :
    ∀ s0 s : LiveState, run s0 es = some s → quietStarts s0 es = true →
      s0.outstandingPolls ≤ 1 → s.outstandingPolls ≤ 1 := by
  induction es with
  | nil =>
    intro s0 s h _ h1
    simp only [run, Option.some.injEq] at h
    subst h
    exact h1
  | cons e es ih =>
    intro s0 s h hq h1
    simp only [run] at h
    cases hs : step s0 e with
    | none => simp [hs] at h
    | some s1 =>
      rw [hs, Option.some_bind] at h
      simp only [quietStarts, hs, Bool.and_eq_true, Bool.or_eq_true, decide_eq_true_eq] at hq
      apply ih s1 s h hq.2
      by_cases he : e = LiveEvent.startSettled true
      · subst he
        simp only [step, Option.some.injEq] at hs
        subst hs
        rw [startDetection_outstandingPolls]
        rcases hq.1 with h0 | h0
        · exact absurd rfl h0
        · omega
      · exact le_trans (step_outstandingPolls_le s0 s1 e he hs) h1

/-- A run with no successful start, or with at most one from a state with no poll
outstanding, has only quiet starts. -/
theorem quietStarts_of_count_le_one (es : List LiveEvent) :
    ∀ s0 : LiveState,
      es.count (LiveEvent.startSettled true) = 0
        ∨ (es.count (LiveEvent.startSettled true) ≤ 1 ∧ s0.outstandingPolls = 0) →
      quietStarts s0 es = true := by
  induction es with
  | nil =>
    intro s0 _
    rfl
  | cons e es ih =>
    intro s0 hc
    simp only [quietStarts, Bool.and_eq_true, Bool.or_eq_true, decide_eq_true_eq]
    by_cases he : e = LiveEvent.startSettled true
    · subst he
      rw [List.count_cons_self] at hc
      have h0 : s0.outstandingPolls = 0 := by
        rcases hc with h | ⟨_, h⟩
        · omega
        · exact h
      refine ⟨Or.inr h0, ?_⟩
      split
      · rfl
      · apply ih
        left
        rcases hc with h | ⟨h, _⟩ <;> omega
    · rw [List.count_cons_of_ne (fun h => he h.symm)] at hc
      refine ⟨Or.inl he, ?_⟩
      split
      · rfl
      · rename_i s1 hs
        apply ih
        rcases hc with h | ⟨h, h0⟩
        · left
          exact h
        · right
          have hle := step_outstandingPolls_le s0 s1 e he hs
          exact ⟨h, by omega⟩

/-- C7, refuted as stated: start, stop, start again while the first session's poll
is still in flight puts two polls in flight at once; when both resolve, two polls
are scheduled, one of them by the poll that was in flight when detection was
stopped. -/
theorem polls_overlap_after_restart :
    (run (pageLoad blankPage)
        [LiveEvent.startSettled true, LiveEvent.stopSettled true,
         LiveEvent.startSettled true]).map (fun s => s.pollsInFlight) = some 2
    ∧ (run (pageLoad blankPage)
        [LiveEvent.startSettled true, LiveEvent.stopSettled true,
         LiveEvent.startSettled true, LiveEvent.pollError, LiveEvent.pollError]).map
          (fun s => s.pollTimers) = some [2000, 2000] := by
  decide

/-- C7, amended: in every state reached from page load by events among which every
start that succeeds does so with no poll in flight or scheduled, at most one poll
is in flight or scheduled; runs in which at most one start succeeds are of that
kind; and in any state where detection is not active, a poll that resolves (with a
body or with an error) schedules nothing and a poll timer that fires issues no
request, so one outstanding poll goes and none comes. -/
theorem polls_sequential_quiet_starts (markup : LiveState) (es : List LiveEvent)
    (s : LiveState) (hquiet : quietStarts (pageLoad markup) es = true)
    (hrun : run (pageLoad markup) es = some s) :
    s.outstandingPolls ≤ 1
    ∧ (∀ es1 : List LiveEvent, es1.count (LiveEvent.startSettled true) ≤ 1 →
        quietStarts (pageLoad markup) es1 = true)
    ∧ ∀ t t1 : LiveState, t.isDetectionActive = false →
        (∀ data, step t (LiveEvent.pollResponse data) = some t1 →
            t1.pollTimers = t.pollTimers ∧ t1.pollsInFlight + 1 = t.pollsInFlight)
        ∧ (step t LiveEvent.pollError = some t1 →
            t1.pollTimers = t.pollTimers ∧ t1.pollsInFlight + 1 = t.pollsInFlight)
        ∧ (∀ due, step t (LiveEvent.pollTimer due) = some t1 →
            t1.pollsInFlight = t.pollsInFlight
              ∧ t1.pollTimers.length + 1 = t.pollTimers.length) := by
  refine ⟨?_, ?_, ?_⟩
  · exact run_quietStarts_le_one es _ _ hrun hquiet (Nat.zero_le 1)
  · intro es1 h1
    exact quietStarts_of_count_le_one es1 _ (Or.inr ⟨h1, rfl⟩)
  · intro t t1 hinactive
    refine ⟨?_, ?_, ?_⟩
    · intro data h
      simp only [step] at h
      split_ifs at h with hp
      simp only [Option.some.injEq] at h
      subst h
      obtain ⟨ha, hf, ht⟩ :=
        updateDetectionResults_frame { t with pollsInFlight := t.pollsInFlight - 1 } data
      have ha1 : (updateDetectionResults { t with pollsInFlight := t.pollsInFlight - 1 }
          data).isDetectionActive = false := by rw [ha]; exact hinactive
      simp only [pollSucceeded, ha1, Bool.false_eq_true, if_false, hf, ht]
      exact ⟨trivial, by omega⟩
    · intro h
      simp only [step] at h
      split_ifs at h with hp
      simp only [Option.some.injEq] at h
      subst h
      simp only [pollFailed, hinactive, Bool.false_eq_true, if_false]
      exact ⟨trivial, by omega⟩
    · intro due h
      simp only [step] at h
      split_ifs at h with hp
      simp only [Option.some.injEq] at h
      subst h
      have hlen := List.length_erase_of_mem hp.1
      have hpos : 0 < t.pollTimers.length := List.length_pos_of_mem hp.1
      simp only [startResultsPolling, hinactive, Bool.not_false, if_true, hlen]
      exact ⟨trivial, by omega⟩

/-- C7, amended, on two sessions in a row: start, a response, the 500 ms timer,
stop while the next poll is in flight, its failure, and a second start once
nothing is outstanding; one poll is outstanding at the end. -/
theorem polls_sequential_quiet_starts_witness :
    quietStarts (pageLoad blankPage)
        [LiveEvent.startSettled true,
          LiveEvent.pollResponse { results := some [], total_detections := none },
          LiveEvent.advance 500, LiveEvent.pollTimer 500, LiveEvent.stopSettled true,
          LiveEvent.pollError, LiveEvent.startSettled true] = true
    ∧ (run (pageLoad blankPage)
        [LiveEvent.startSettled true,
          LiveEvent.pollResponse { results := some [], total_detections := none },
          LiveEvent.advance 500, LiveEvent.pollTimer 500, LiveEvent.stopSettled true,
          LiveEvent.pollError, LiveEvent.startSettled true]).isSome = true
    ∧ ((run (pageLoad blankPage)
        [LiveEvent.startSettled true,
          LiveEvent.pollResponse { results := some [], total_detections := none },
          LiveEvent.advance 500, LiveEvent.pollTimer 500, LiveEvent.stopSettled true,
          LiveEvent.pollError, LiveEvent.startSettled true]).getD blankPage).outstandingPolls
        ≤ 1 :=
  ⟨by decide, by decide,
   (polls_sequential_quiet_starts blankPage
      [LiveEvent.startSettled true,
        LiveEvent.pollResponse { results := some [], total_detections := none },
        LiveEvent.advance 500, LiveEvent.pollTimer 500, LiveEvent.stopSettled true,
        LiveEvent.pollError, LiveEvent.startSettled true] _ (by decide) (by rfl)).1⟩

end Live

namespace Upload

/-! ## CSV export -/

/-- The loop of `exportAsCsv` appends the rows, in order, each with its newline. -/
theorem foldl_csv_rows (numberToString : Rat → String) (frames : List FrameResult) :
    ∀ csvContent : String,
      frames.foldl (fun csvContent frame =>
          csvContent ++ (numberToString frame.frame ++ "," ++ numberToString frame.timestamp
            ++ "," ++ boolToString frame.is_violent ++ "," ++ numberToString frame.confidence
            ++ "\n")) csvContent
        = csvContent ++ joinLines (frames.map (csvRowLine numberToString)) := by
  induction frames with
  | nil =>
    intro csvContent
    simp [joinLines]
  | cons frame frames ih =>
    intro csvContent
    rw [List.foldl_cons, ih, List.map_cons, joinLines, String.append_assoc]
    rfl

/-- C10: the CSV content is the header line followed by one line per frame result
in the order received, each line being the frame's four values joined by commas
and every line ended by a newline; with no frame results (missing or empty) it is
the header line alone; the frame `{frame: 0, timestamp: 0, is_violent: false,
confidence: 0.1}` gives the row `0,0,false,0.1`. -/
theorem exportAsCsv_content (numberToString : Rat → String) (results : AnalysisResult) :
    exportAsCsv numberToString results
      = joinLines (csvHeaderLine ::
          (results.frame_results.getD []).map (csvRowLine numberToString))
    ∧ ((results.frame_results.getD []).map (csvRowLine numberToString)).length
        = (results.frame_results.getD []).length
    ∧ (∀ frame, csvRowLine numberToString frame
        = numberToString frame.frame ++ "," ++ numberToString frame.timestamp ++ ","
          ++ boolToString frame.is_violent ++ "," ++ numberToString frame.confidence)
    ∧ exportAsCsv numberToString { results with frame_results := none }
        = "Frame,Timestamp,Is_Violent,Confidence\n"
    ∧ exportAsCsv numberToString { results with frame_results := (some []) }
        = "Frame,Timestamp,Is_Violent,Confidence\n"
    ∧ exportAsCsv decimalString
        { results with frame_results :=
            (some [{ frame := 0, timestamp := 0, is_violent := false, confidence := 1 / 10 }]) }
        = "Frame,Timestamp,Is_Violent,Confidence\n0,0,false,0.1\n" := by
  refine ⟨?_, by simp, fun _ => rfl, rfl, rfl, ?_⟩
  · cases h : results.frame_results with
    | none =>
      simp only [exportAsCsv, h, Option.getD_none, List.map_nil, joinLines, csvHeaderLine]
      rfl
    | some frames =>
      simp only [exportAsCsv, h, Option.getD_some, foldl_csv_rows, joinLines, csvHeaderLine]
      rfl
  · have h0 : decimalString 0 = "0" := by decide!
    have h1 : decimalString (1 / 10) = "0.1" := by decide!
    simp only [exportAsCsv, List.foldl_cons, List.foldl_nil, Nat.cast_zero, h0, h1, boolToString]
    decide

end Upload

namespace Upload

/-! ## Single-flight analysis -/

/-- A progress tick touches neither the staged file, the in-flight flag, the
requests in flight nor the submissions. -/
theorem progressTick_frame (s : UploadState) (i : Nat) (random : Rat) :
    (progressTick s i random).isAnalyzing = s.isAnalyzing
    ∧ (progressTick s i random).uploadsInFlight = s.uploadsInFlight
    ∧ (progressTick s i random).submissions = s.submissions
    ∧ (progressTick s i random).selectedFile = s.selectedFile := by
  unfold progressTick
  split
  · exact ⟨rfl, rfl, rfl, rfl⟩
  · dsimp only
    split_ifs <;> exact ⟨rfl, rfl, rfl, rfl⟩

/-- Choosing a file touches neither the in-flight flag, the requests in flight nor
the submissions. -/
theorem handleFileSelect_frame (toLowerCase : String → String) (s : UploadState)
    (file : Option File) :
    (handleFileSelect toLowerCase s file).isAnalyzing = s.isAnalyzing
    ∧ (handleFileSelect toLowerCase s file).uploadsInFlight = s.uploadsInFlight
    ∧ (handleFileSelect toLowerCase s file).submissions = s.submissions := by
  unfold handleFileSelect
  split
  · exact ⟨rfl, rfl, rfl⟩
  · split_ifs <;> exact ⟨rfl, rfl, rfl⟩

/-- An export touches neither the in-flight flag, the requests in flight nor the
submissions. -/
theorem exportReport_frame (s : UploadState) (format : ExportFormat) :
    (exportReport s format).isAnalyzing = s.isAnalyzing
    ∧ (exportReport s format).uploadsInFlight = s.uploadsInFlight
    ∧ (exportReport s format).submissions = s.submissions := by
  unfold exportReport
  split
  · exact ⟨rfl, rfl, rfl⟩
  · cases format <;> exact ⟨rfl, rfl, rfl⟩

/-- `analyzeVideo` does nothing without a staged file or while analyzing. -/
theorem analyzeVideo_noop (s : UploadState)
    (h : s.selectedFile = none ∨ s.isAnalyzing = true) : analyzeVideo s = s := by
  unfold analyzeVideo
  cases hf : s.selectedFile with
  | none => rfl
  | some file =>
    rcases h with h | h
    · rw [hf] at h
      cases h
    · simp only [h, if_true]

/-- `analyzeVideo` with a staged file and nothing in flight submits that file once
and sets the in-flight flag. -/
theorem analyzeVideo_submits (s : UploadState) (file : File)
    (hf : s.selectedFile = some file) (ha : s.isAnalyzing = false) :
    (analyzeVideo s).isAnalyzing = true
    ∧ (analyzeVideo s).selectedFile = some file
    ∧ (analyzeVideo s).submissions = s.submissions ++ [file]
    ∧ (analyzeVideo s).uploadsInFlight = s.uploadsInFlight + 1 := by
  unfold analyzeVideo
  simp only [hf, ha, Bool.false_eq_true, if_false]
  exact ⟨rfl, rfl, rfl, rfl⟩

/-- Requests in flight are one while analyzing and none otherwise: every event keeps
this. -/
theorem step_inFlight_inv (toLowerCase : String → String) (s s1 : UploadState)
    (e : UploadEvent) (h : step toLowerCase s e = some s1)
    (hinv : s.uploadsInFlight = if s.isAnalyzing then 1 else 0) :
    s1.uploadsInFlight = if s1.isAnalyzing then 1 else 0 := by
  have hanalyze : (analyzeVideo s).uploadsInFlight
      = if (analyzeVideo s).isAnalyzing then 1 else 0 := by
    cases hf : s.selectedFile with
    | none => rw [analyzeVideo_noop s (Or.inl hf)]; exact hinv
    | some file =>
      cases ha : s.isAnalyzing with
      | true => rw [analyzeVideo_noop s (Or.inr ha)]; exact hinv
      | false =>
        obtain ⟨h1, _, _, h4⟩ := analyzeVideo_submits s file hf ha
        rw [h1, h4, hinv, ha]
        rfl
  cases e with
  | fileSelect file =>
    simp only [step, Option.some.injEq] at h
    subst h
    obtain ⟨h1, h2, _⟩ := handleFileSelect_frame toLowerCase s file
    rw [h1, h2]
    exact hinv
  | removeClick =>
    simp only [step, Option.some.injEq] at h
    subst h
    exact hinv
  | analyzeClick =>
    simp only [step, Option.some.injEq] at h
    subst h
    exact hanalyze
  | retryClick =>
    simp only [step, Option.some.injEq] at h
    subst h
    unfold retryAnalysis
    by_cases hsel : s.selectedFile.isSome = true
    · rw [if_pos hsel]
      exact hanalyze
    · rw [if_neg hsel]
      exact hinv
  | exportClick format =>
    simp only [step, Option.some.injEq] at h
    subst h
    obtain ⟨h1, h2, _⟩ := exportReport_frame s format
    rw [h1, h2]
    exact hinv
  | uploadSettled outcome =>
    simp only [step] at h
    split_ifs at h with hp
    simp only [Option.some.injEq] at h
    subst h
    have h1 : s.uploadsInFlight = 1 := by
      rw [hinv] at hp ⊢
      split_ifs at hp ⊢
      · rfl
      · omega
    cases outcome <;> simp [analyzeVideoSettled, showNotification, showAnalysisResults,
      showAnalysisError, hideAllSections, h1]
  | progressTimer i random =>
    simp only [step] at h
    split_ifs at h with hp
    simp only [Option.some.injEq] at h
    subst h
    obtain ⟨h1, h2, _, _⟩ := progressTick_frame s i random
    rw [h1, h2]
    exact hinv

/-- The invariant of `step_inFlight_inv` along a run. -/
theorem run_inFlight_inv (toLowerCase : String → String) (es : List UploadEvent) :
    ∀ s0 s : UploadState, run toLowerCase s0 es = some s →
      (s0.uploadsInFlight = if s0.isAnalyzing then 1 else 0) →
      s.uploadsInFlight = if s.isAnalyzing then 1 else 0 := by
  induction es with
  | nil =>
    intro s0 s h hinv
    simp only [run, Option.some.injEq] at h
    subst h
    exact hinv
  | cons e es ih =>
    intro s0 s h hinv
    simp only [run] at h
    cases hs : step toLowerCase s0 e with
    | none => simp [hs] at h
    | some s1 =>
      rw [hs, Option.some_bind] at h
      exact ih s1 s h (step_inFlight_inv toLowerCase s0 s1 e hs hinv)

/-- While an analysis is in flight, an event other than its settling submits
nothing and leaves it in flight. -/
theorem step_while_analyzing (toLowerCase : String → String) (s s1 : UploadState)
    (e : UploadEvent) (h : step toLowerCase s e = some s1) (ha : s.isAnalyzing = true)
    (he : ∀ outcome, e ≠ UploadEvent.uploadSettled outcome) :
    s1.isAnalyzing = true ∧ s1.submissions = s.submissions := by
  cases e with
  | fileSelect file =>
    simp only [step, Option.some.injEq] at h
    subst h
    obtain ⟨h1, _, h3⟩ := handleFileSelect_frame toLowerCase s file
    exact ⟨h1.trans ha, h3⟩
  | removeClick =>
    simp only [step, Option.some.injEq] at h
    subst h
    exact ⟨ha, rfl⟩
  | analyzeClick =>
    simp only [step, Option.some.injEq] at h
    subst h
    rw [analyzeVideo_noop s (Or.inr ha)]
    exact ⟨ha, rfl⟩
  | retryClick =>
    simp only [step, Option.some.injEq] at h
    subst h
    unfold retryAnalysis
    split_ifs
    · rw [analyzeVideo_noop s (Or.inr ha)]
      exact ⟨ha, rfl⟩
    · exact ⟨ha, rfl⟩
  | exportClick format =>
    simp only [step, Option.some.injEq] at h
    subst h
    obtain ⟨h1, _, h3⟩ := exportReport_frame s format
    exact ⟨h1.trans ha, h3⟩
  | uploadSettled outcome =>
    exact absurd rfl (he outcome)
  | progressTimer i random =>
    simp only [step] at h
    split_ifs at h with hp
    simp only [Option.some.injEq] at h
    subst h
    obtain ⟨h1, _, h3, _⟩ := progressTick_frame s i random
    exact ⟨h1.trans ha, h3⟩

/-- The statement of `step_while_analyzing` along a run. -/
theorem run_while_analyzing (toLowerCase : String → String) (es : List UploadEvent) :
    ∀ s0 s : UploadState, run toLowerCase s0 es = some s → s0.isAnalyzing = true →
      (∀ e ∈ es, ∀ outcome, e ≠ UploadEvent.uploadSettled outcome) →
      s.isAnalyzing = true ∧ s.submissions = s0.submissions := by
  induction es with
  | nil =>
    intro s0 s h ha _
    simp only [run, Option.some.injEq] at h
    subst h
    exact ⟨ha, rfl⟩
  | cons e es ih =>
    intro s0 s h ha he
    simp only [run] at h
    cases hs : step toLowerCase s0 e with
    | none => simp [hs] at h
    | some s1 =>
      rw [hs, Option.some_bind] at h
      obtain ⟨h1, h2⟩ := step_while_analyzing toLowerCase s0 s1 e hs ha
        (he e (List.mem_cons_self _ _))
      obtain ⟨h3, h4⟩ := ih s1 s h h1 (fun e1 hm => he e1 (List.mem_cons_of_mem _ hm))
      exact ⟨h3, h4.trans h2⟩

/-- C8: `analyzeVideo` returns the state unchanged, submitting nothing, when no
file is staged or an analysis is in flight; from a state with a staged file and no
analysis in flight, two invocations, with nothing or with any events other than a
completion between them, submit that file exactly once; and in every state reached
from page load at most one upload request is in flight (one while analyzing, none
otherwise). -/
theorem analyzeVideo_single_flight (toLowerCase : String → String) (markup : UploadState)
    (es : List UploadEvent) (s : UploadState)
    (hrun : run toLowerCase (pageLoad markup) es = some s) :
    s.uploadsInFlight ≤ 1
    ∧ (s.uploadsInFlight = if s.isAnalyzing then 1 else 0)
    ∧ (∀ t : UploadState, t.selectedFile = none ∨ t.isAnalyzing = true → analyzeVideo t = t)
    ∧ (∀ (t : UploadState) (file : File), t.selectedFile = some file → t.isAnalyzing = false →
        (analyzeVideo (analyzeVideo t)).submissions = t.submissions ++ [file]
        ∧ (analyzeVideo (analyzeVideo t)).uploadsInFlight = t.uploadsInFlight + 1)
    ∧ (∀ (t t1 : UploadState) (file : File) (mid : List UploadEvent),
        t.selectedFile = some file → t.isAnalyzing = false →
        (∀ e ∈ mid, ∀ outcome, e ≠ UploadEvent.uploadSettled outcome) →
        run toLowerCase t (UploadEvent.analyzeClick :: (mid ++ [UploadEvent.analyzeClick]))
          = some t1 →
        t1.submissions = t.submissions ++ [file]) := by
  have hinv := run_inFlight_inv toLowerCase es (pageLoad markup) s hrun rfl
  refine ⟨?_, hinv, analyzeVideo_noop, ?_, ?_⟩
  · rw [hinv]
    split_ifs <;> omega
  · intro t file hf ha
    obtain ⟨h1, _, h3, h4⟩ := analyzeVideo_submits t file hf ha
    rw [analyzeVideo_noop (analyzeVideo t) (Or.inr h1)]
    exact ⟨h3, h4⟩
  · intro t t1 file mid hf ha hmid h
    obtain ⟨h1, _, h3, _⟩ := analyzeVideo_submits t file hf ha
    simp only [run, step, Option.some_bind] at h
    have hall : ∀ e ∈ mid ++ [UploadEvent.analyzeClick],
        ∀ outcome, e ≠ UploadEvent.uploadSettled outcome := by
      intro e he outcome
      rcases List.mem_append.1 he with he | he
      · exact hmid e he outcome
      · rw [List.mem_singleton] at he
        subst he
        intro hne
        cases hne
    obtain ⟨_, h5⟩ := run_while_analyzing toLowerCase _ _ _ h h1 hall
    rw [h5, h3]

/-- C8 at a blank page: `movie.MP4` is staged, the analyze button is clicked twice;
one request is in flight and the file was submitted once. -/
theorem analyzeVideo_single_flight_witness :
    (run asciiLowerCase (pageLoad blankPage)
        [UploadEvent.fileSelect (some { name := "movie.MP4", type := "video/mp4", size := 135 }),
         UploadEvent.analyzeClick, UploadEvent.analyzeClick]).isSome = true
    ∧ ((run asciiLowerCase (pageLoad blankPage)
        [UploadEvent.fileSelect (some { name := "movie.MP4", type := "video/mp4", size := 135 }),
         UploadEvent.analyzeClick, UploadEvent.analyzeClick]).getD blankPage).uploadsInFlight ≤ 1
    ∧ ((run asciiLowerCase (pageLoad blankPage)
        [UploadEvent.fileSelect (some { name := "movie.MP4", type := "video/mp4", size := 135 }),
         UploadEvent.analyzeClick, UploadEvent.analyzeClick]).getD blankPage).submissions
        = [{ name := "movie.MP4", type := "video/mp4", size := 135 }] :=
  ⟨by decide,
   (analyzeVideo_single_flight asciiLowerCase blankPage
      [UploadEvent.fileSelect (some { name := "movie.MP4", type := "video/mp4", size := 135 }),
       UploadEvent.analyzeClick, UploadEvent.analyzeClick] _ (by rfl)).1,
   by decide⟩

end Upload

namespace Upload

/-! ## Binary64 rounding -/

/-- Rounding to the nearest integer moves a number by at most one half. -/
theorem roundHalfEven_near (q : Rat) :
    q - 1 / 2 ≤ roundHalfEven q ∧ (roundHalfEven q : Rat) ≤ q + 1 / 2 := by
  have h1 : ((Rat.floor q : Int) : Rat) ≤ q := Int.floor_le q
  have h2 : q < (Rat.floor q : Int) + 1 := Int.lt_floor_add_one q
  unfold roundHalfEven
  dsimp only
  split_ifs with ha hb hc
  · constructor <;> linarith
  · push_cast
    constructor <;> linarith
  · constructor <;> linarith
  · push_cast
    constructor <;> linarith

/-- With enough fuel the leading binary digit is found. -/
theorem log2Fuel_bounds (fuel : Nat) :
    ∀ n : Nat, n ≤ fuel → 1 ≤ n →
      2 ^ log2Fuel fuel n ≤ n ∧ n < 2 ^ (log2Fuel fuel n + 1) := by
  induction fuel with
  | zero =>
    intro n h0 h1
    omega
  | succ fuel ih =>
    intro n h0 h1
    simp only [log2Fuel]
    split_ifs with h2
    · simp
      omega
    · obtain ⟨ha, hb⟩ := ih (n / 2) (by omega) (by omega)
      rw [pow_succ] at hb ⊢
      rw [pow_succ]
      constructor <;> omega

/-- Lower bound of `natLog2`. -/
theorem natLog2_le (n : Nat) (h : 1 ≤ n) : 2 ^ natLog2 n ≤ n :=
  (log2Fuel_bounds n n (le_refl n) h).1

/-- Upper bound of `natLog2`. -/
theorem lt_natLog2 (n : Nat) (h : 1 ≤ n) : n < 2 ^ (natLog2 n + 1) :=
  (log2Fuel_bounds n n (le_refl n) h).2

/-- The absolute value of a rational from its numerator and denominator. -/
theorem abs_eq_natAbs_div (x : Rat) : |x| = (x.num.natAbs : Rat) / (x.den : Rat) := by
  have hden : (0 : Rat) < x.den := by exact_mod_cast x.den_pos
  conv_lhs => rw [← Rat.num_div_den x]
  rw [abs_div, abs_of_pos hden, Nat.cast_natAbs, Int.cast_abs]

/-- The power of two at the binary exponent is not above the number. -/
theorem binaryExponent_le (x : Rat) (hx : x ≠ 0) : (2 : Rat) ^ binaryExponent x ≤ |x| := by
  unfold binaryExponent
  dsimp only
  split_ifs with h
  · exact h
  · have hp : 1 ≤ x.num.natAbs := by
      have : x.num ≠ 0 := Rat.num_ne_zero.2 hx
      omega
    have hq : 1 ≤ x.den := x.den_pos
    have h1 : ((2 : Rat) ^ natLog2 x.num.natAbs) ≤ (x.num.natAbs : Rat) := by
      exact_mod_cast natLog2_le _ hp
    have h2 : ((x.den : Rat)) ≤ (2 : Rat) ^ (natLog2 x.den + 1) := by
      exact_mod_cast (lt_natLog2 _ hq).le
    have hden : (0 : Rat) < x.den := by exact_mod_cast x.den_pos
    have hpow : (0 : Rat) < (2 : Rat) ^ (natLog2 x.den + 1) := by positivity
    have he : (2 : Rat) ^ ((natLog2 x.num.natAbs : Int) - (natLog2 x.den : Int) - 1)
        = (2 : Rat) ^ natLog2 x.num.natAbs / (2 : Rat) ^ (natLog2 x.den + 1) := by
      rw [sub_sub, zpow_sub₀ (by norm_num : (2 : Rat) ≠ 0)]
      congr 1
      · exact zpow_natCast _ _
      · have : ((natLog2 x.den : Int) + 1) = ((natLog2 x.den + 1 : Nat) : Int) := by push_cast; rfl
        rw [this, zpow_natCast]
    rw [he, abs_eq_natAbs_div]
    exact div_le_div₀ (by positivity) h1 hden h2

/-- Below 2^53 the binary64 quotient by 60 has the floor of the exact quotient. -/
theorem floor_toDouble_div_sixty (s : Nat) (hs : s < 2 ^ 53) :
    Rat.floor (toDouble ((s : Rat) / 60)) = ((s / 60 : Nat) : Int) := by
  by_cases h0 : s = 0
  · subst h0
    simp only [toDouble, Nat.cast_zero, zero_div, if_true, Nat.zero_div]
    exact (Int.floor_zero : ⌊(0 : Rat)⌋ = 0)
  · have hspos : (0 : Rat) < s := by exact_mod_cast Nat.pos_of_ne_zero h0
    have hx : (s : Rat) / 60 ≠ 0 := by positivity
    have hxpos : (0 : Rat) < (s : Rat) / 60 := by positivity
    have hlow := binaryExponent_le _ hx
    rw [abs_of_pos hxpos] at hlow
    have hslt : (s : Rat) < 2 ^ 53 := by exact_mod_cast hs
    have hxlt : (s : Rat) / 60 < (2 : Rat) ^ (48 : Int) := by
      rw [div_lt_iff₀ (by norm_num)]
      norm_num
      norm_num at hslt
      linarith
    have he : binaryExponent ((s : Rat) / 60) < 48 := by
      by_contra hcon
      push_neg at hcon
      have : (2 : Rat) ^ (48 : Int) ≤ (2 : Rat) ^ binaryExponent ((s : Rat) / 60) :=
        zpow_le_zpow_right₀ (by norm_num) hcon
      linarith
    obtain ⟨k, hk⟩ : ∃ k : Nat, binaryExponent ((s : Rat) / 60) - 52 = -((k + 5 : Nat) : Int) :=
      ⟨(47 - binaryExponent ((s : Rat) / 60)).toNat, by
        have := Int.toNat_of_nonneg (show (0 : Int) ≤ 47 - binaryExponent ((s : Rat) / 60) by omega)
        push_cast
        omega⟩
    have hN : (32 : Rat) ≤ (2 : Rat) ^ (k + 5) := by
      rw [pow_add]
      have : (1 : Rat) ≤ 2 ^ k := one_le_pow₀ (by norm_num)
      norm_num
      linarith
    have hNpos : (0 : Rat) < (2 : Rat) ^ (k + 5) := by positivity
    have hulp : (2 : Rat) ^ (binaryExponent ((s : Rat) / 60) - 52) = ((2 : Rat) ^ (k + 5))⁻¹ := by
      rw [hk, zpow_neg, zpow_natCast]
    have hval : toDouble ((s : Rat) / 60)
        = (roundHalfEven ((s : Rat) / 60 * (2 : Rat) ^ (k + 5)) : Rat) / (2 : Rat) ^ (k + 5) := by
      unfold toDouble
      rw [if_neg hx]
      dsimp only
      rw [hulp, div_inv_eq_mul]
      exact (div_eq_mul_inv _ _).symm
    obtain ⟨hm1, hm2⟩ := roundHalfEven_near ((s : Rat) / 60 * (2 : Rat) ^ (k + 5))
    set m := roundHalfEven ((s : Rat) / 60 * (2 : Rat) ^ (k + 5)) with hm
    have hdiv : s = 60 * (s / 60) + s % 60 := (Nat.div_add_mod s 60).symm
    have hmod : s % 60 < 60 := Nat.mod_lt _ (by norm_num)
    generalize s / 60 = n at hdiv ⊢
    generalize s % 60 = j at hdiv hmod
    have hsq : (s : Rat) = 60 * (n : Rat) + (j : Rat) := by
      exact_mod_cast hdiv
    have hjle : (j : Rat) ≤ 59 := by
      have : j ≤ 59 := by omega
      exact_mod_cast this
    have hj0 : (0 : Rat) ≤ (j : Rat) := by positivity
    have hxeq : (s : Rat) / 60 = (n : Rat) + (j : Rat) / 60 := by
      field_simp
      linarith
    have hlower : ((n : Int) * 2 ^ (k + 5)) ≤ m := by
      have h1 : (((n : Int) * 2 ^ (k + 5) - 1 : Int) : Rat) < (m : Rat) := by
        push_cast
        rw [hxeq, add_mul] at hm1
        have : (0 : Rat) ≤ (j : Rat) / 60 * 2 ^ (k + 5) := by positivity
        linarith
      have h2 : ((n : Int) * 2 ^ (k + 5) - 1 : Int) < m := by exact_mod_cast h1
      omega
    have hupper : (m : Rat) < ((n : Rat) + 1) * 2 ^ (k + 5) := by
      rw [hxeq, add_mul] at hm2
      have : (j : Rat) / 60 * 2 ^ (k + 5) ≤ 59 / 60 * 2 ^ (k + 5) := by
        apply mul_le_mul_of_nonneg_right _ hNpos.le
        linarith
      linarith
    rw [hval]
    show ⌊(m : Rat) / (2 : Rat) ^ (k + 5)⌋ = _
    rw [Int.floor_eq_iff]
    constructor
    · rw [le_div_iff₀ hNpos]
      have : (((n : Int) * 2 ^ (k + 5) : Int) : Rat) ≤ (m : Rat) := by
        exact_mod_cast hlower
      push_cast at this ⊢
      exact this
    · rw [div_lt_iff₀ hNpos]
      push_cast
      exact hupper

/-! ## Time labels -/

/-- A decimal digit character is worth its digit. -/
theorem digitChar_value : ∀ d < 10, (Nat.digitChar d).toNat - 48 = d := by
  decide

/-- A decimal digit character is not the colon. -/
theorem digitChar_ne_colon : ∀ d < 10, (Nat.digitChar d != ':') = true := by
  decide

/-- Numbers below 100 have at most two digits. -/
theorem toDigits_length_le_two : ∀ n < 100, (Nat.toDigits 10 n).length ≤ 2 := by
  decide

/-- Reading the digits produced for `n` in front of `ds` continues the reading of
`ds` from `n`. -/
theorem toDigitsCore_value (fuel : Nat) :
    ∀ (n : Nat) (ds : List Char), n < fuel →
      (Nat.toDigitsCore 10 fuel n ds).foldl (fun value c => 10 * value + (c.toNat - 48)) 0
        = ds.foldl (fun value c => 10 * value + (c.toNat - 48)) n := by
  induction fuel with
  | zero =>
    intro n ds h
    omega
  | succ fuel ih =>
    intro n ds h
    have hd := digitChar_value (n % 10) (Nat.mod_lt _ (by decide))
    simp only [Nat.toDigitsCore]
    split_ifs with h0
    · have hn : n % 10 = n := Nat.mod_eq_of_lt (by omega)
      simp only [List.foldl_cons, Nat.mul_zero, Nat.zero_add]
      rw [hd, hn]
    · rw [ih (n / 10) _ (by omega)]
      simp only [List.foldl_cons, hd]
      congr 1
      omega

/-- The digits of `n` read back as `n`. -/
theorem ofDigitChars_natToString (n : Nat) : ofDigitChars (natToString n).data = n := by
  simp only [natToString, Nat.toDigits, ofDigitChars]
  rw [toDigitsCore_value (n + 1) n [] (Nat.lt_succ_self n)]
  rfl

/-- No digit produced for a number is the colon. -/
theorem toDigitsCore_ne_colon (fuel : Nat) :
    ∀ (n : Nat) (ds : List Char), (∀ c ∈ ds, (c != ':') = true) →
      ∀ c ∈ Nat.toDigitsCore 10 fuel n ds, (c != ':') = true := by
  induction fuel with
  | zero =>
    intro n ds hds
    exact hds
  | succ fuel ih =>
    intro n ds hds
    have hd := digitChar_ne_colon (n % 10) (Nat.mod_lt _ (by decide))
    have hcons : ∀ c ∈ Nat.digitChar (n % 10) :: ds, (c != ':') = true := by
      intro c hc
      rcases List.mem_cons.1 hc with h | h
      · rw [h]
        exact hd
      · exact hds c h
    simp only [Nat.toDigitsCore]
    split_ifs with h0
    · exact hcons
    · exact ih (n / 10) _ hcons

/-- Left zeros do not change the number read. -/
theorem ofDigitChars_replicate_zero (k : Nat) (ds : List Char) :
    ofDigitChars (List.replicate k '0' ++ ds) = ofDigitChars ds := by
  induction k with
  | zero => rfl
  | succ k ih =>
    rw [List.replicate_succ, List.cons_append]
    simpa [ofDigitChars] using ih

/-- Splitting at the first colon when the left part holds none. -/
theorem split_at_colon (l r : List Char) (h : ∀ c ∈ l, (c != ':') = true) :
    (l ++ ':' :: r).takeWhile (fun c => c != ':') = l
    ∧ (l ++ ':' :: r).dropWhile (fun c => c != ':') = ':' :: r := by
  induction l with
  | nil => exact ⟨rfl, rfl⟩
  | cons a l ih =>
    have ha := h a (List.mem_cons_self _ _)
    obtain ⟨h1, h2⟩ := ih (fun c hc => h c (List.mem_cons_of_mem _ hc))
    simp only [List.cons_append, List.takeWhile_cons, List.dropWhile_cons, ha, if_true, h1, h2,
      and_self]

/-- The label of a natural number of seconds below 2^53, spelled out. -/
theorem formatTime_natCast (s : Nat) (hs : s < 2 ^ 53) :
    formatTime (s : Int)
      = padStart (natToString (s / 60)) 2 '0' ++ ":" ++ padStart (natToString (s % 60)) 2 '0' := by
  have h1 : Rat.floor (toDouble (((s : Int) : Rat) / 60)) = ((s / 60 : Nat) : Int) := by
    rw [Int.cast_natCast]
    exact floor_toDouble_div_sixty s hs
  have h2 : Int.tmod (s : Int) 60 = ((s % 60 : Nat) : Int) := (Int.ofNat_tmod s 60).symm
  simp only [formatTime, h1, h2]
  rfl

/-- The label of a natural number of seconds below 2^53 reads back as that number. -/
theorem parseTime_formatTime (s : Nat) (hs : s < 2 ^ 53) :
    parseTime (formatTime (s : Int)) = s := by
  rw [formatTime_natCast s hs]
  have hpad : ∀ n : Nat, ∀ c ∈ (padStart (natToString n) 2 '0').data, (c != ':') = true := by
    intro n c hc
    simp only [padStart, List.mem_append] at hc
    rcases hc with hc | hc
    · rw [(List.mem_replicate.1 hc).2]
      decide
    · exact toDigitsCore_ne_colon (n + 1) n [] (fun _ h => absurd h (List.not_mem_nil _)) c hc
  have hdata : (padStart (natToString (s / 60)) 2 '0' ++ ":"
      ++ padStart (natToString (s % 60)) 2 '0').data
      = (padStart (natToString (s / 60)) 2 '0').data
        ++ ':' :: (padStart (natToString (s % 60)) 2 '0').data := by
    simp only [String.data_append, List.append_assoc]
    rfl
  obtain ⟨h1, h2⟩ := split_at_colon _ (padStart (natToString (s % 60)) 2 '0').data
    (hpad (s / 60))
  simp only [parseTime, hdata, h1, h2, List.drop_succ_cons, List.drop_zero]
  simp only [padStart, ofDigitChars_replicate_zero, ofDigitChars_natToString]
  omega

/-- The length of a string padded to two characters. -/
theorem padStart_two_length (x : String) :
    (padStart x 2 '0').length = (2 - x.data.length) + x.data.length := by
  simp only [padStart, String.length, List.length_append, List.length_replicate]

/-- C15, refuted as stated: 67553994410557496 is a binary64 integer; the quotient by
60 rounds up to 1125899906842625 although the exact floor is 1125899906842624, so
the label is `1125899906842625:56`, which reads back as 67553994410557556. -/
theorem formatTime_large_seconds :
    toDouble 67553994410557496 = 67553994410557496
    ∧ formatTime 67553994410557496 = "1125899906842625:56"
    ∧ 67553994410557496 / 60 = 1125899906842624
    ∧ parseTime (formatTime 67553994410557496) = 67553994410557556 := by
  decide!

/-- C15, amended: for a natural number of seconds `s` below 2^53, `formatTime` gives
`M:S` with `M` the decimal digits of `s / 60` padded with zeros to at least two
characters and `S` the decimal digits of `s % 60` padded to exactly two;
`s % 60 < 60`; the label reads back as `60 * (s / 60) + s % 60 = s`, so distinct
`s` below 2^53 give distinct labels; and for `s < 6000` the label has exactly five
characters. -/
theorem formatTime_label (s : Nat) (hs : s < 2 ^ 53) :
    formatTime (s : Int)
      = padStart (natToString (s / 60)) 2 '0' ++ ":" ++ padStart (natToString (s % 60)) 2 '0'
    ∧ ofDigitChars (natToString (s / 60)).data = s / 60
    ∧ ofDigitChars (natToString (s % 60)).data = s % 60
    ∧ 2 ≤ (padStart (natToString (s / 60)) 2 '0').length
    ∧ (padStart (natToString (s % 60)) 2 '0').length = 2
    ∧ s % 60 < 60
    ∧ parseTime (formatTime (s : Int)) = 60 * (s / 60) + s % 60
    ∧ parseTime (formatTime (s : Int)) = s
    ∧ (∀ s1 : Nat, s1 < 2 ^ 53 → formatTime (s : Int) = formatTime (s1 : Int) → s = s1)
    ∧ (s < 6000 → (formatTime (s : Int)).length = 5) := by
  have hsec : (natToString (s % 60)).data.length ≤ 2 :=
    toDigits_length_le_two (s % 60) (by omega)
  refine ⟨formatTime_natCast s hs, ofDigitChars_natToString _, ofDigitChars_natToString _,
    ?_, ?_, Nat.mod_lt _ (by decide), ?_, parseTime_formatTime s hs, ?_, ?_⟩
  · rw [padStart_two_length]
    omega
  · rw [padStart_two_length]
    omega
  · rw [parseTime_formatTime s hs]
    omega
  · intro s1 hs1 h
    have h1 := parseTime_formatTime s hs
    rw [h, parseTime_formatTime s1 hs1] at h1
    exact h1.symm
  · intro h
    have hmin : (natToString (s / 60)).data.length ≤ 2 :=
      toDigits_length_le_two (s / 60) (by omega)
    rw [formatTime_natCast s hs, String.length_append, String.length_append,
      padStart_two_length, padStart_two_length]
    have hcolon : ":".length = 1 := rfl
    omega

/-- C15, amended, at 75 seconds: the label is `01:15`, five characters, and reads
back as 75. -/
theorem formatTime_label_witness :
    75 < 2 ^ 53 ∧ 75 < 6000
    ∧ formatTime ((75 : Nat) : Int) = "01:15"
    ∧ parseTime (formatTime ((75 : Nat) : Int)) = 75
    ∧ (formatTime ((75 : Nat) : Int)).length = 5 :=
  ⟨by decide, by decide, by decide!,
   (formatTime_label 75 (by decide)).2.2.2.2.2.2.2.1,
   (formatTime_label 75 (by decide)).2.2.2.2.2.2.2.2.2 (by decide)⟩

/-! ## Text report -/

/-- `Math.round` gives the integer within one half of its argument, halves going
up. -/
theorem mathRound_nearest (x : Rat) :
    (mathRound x : Rat) - 1 / 2 ≤ x ∧ x < (mathRound x : Rat) + 1 / 2 := by
  have h1 : ((Rat.floor (x + 1 / 2) : Int) : Rat) ≤ x + 1 / 2 := Int.floor_le _
  have h2 : x + 1 / 2 < (Rat.floor (x + 1 / 2) : Int) + 1 := Int.lt_floor_add_one _
  unfold mathRound
  constructor <;> linarith

/-- The loop of `exportAsPdf` appends the frame lines, in order, each with its
newline. -/
theorem foldl_pdf_lines (frames : List FrameResult) :
    ∀ pdfContent : String,
      frames.foldl (fun pdfContent frame =>
          pdfContent ++ (formatTime (Rat.floor (toDouble frame.timestamp)) ++ ": "
            ++ (if frame.is_violent then "Violence" else "Safe")
            ++ " (" ++ intToString (mathRound (toDouble (toDouble frame.confidence * 100)))
            ++ "%)\n")) pdfContent
        = pdfContent ++ joinLines (frames.map pdfFrameLine) := by
  induction frames with
  | nil =>
    intro pdfContent
    simp [joinLines]
  | cons frame frames ih =>
    intro pdfContent
    have hline : formatTime (Rat.floor (toDouble frame.timestamp)) ++ ": "
          ++ (if frame.is_violent then "Violence" else "Safe")
          ++ " (" ++ intToString (mathRound (toDouble (toDouble frame.confidence * 100)))
          ++ "%)\n"
        = pdfFrameLine frame ++ "\n" := by
      simp only [pdfFrameLine, roundedPercent, String.append_assoc]
      rfl
    rw [List.foldl_cons, ih, List.map_cons, joinLines, hline, String.append_assoc]

/-- C11, refuted as stated: for the binary64 confidence nearest to 0.605 the report
line reads `(61%)`, although that confidence times 100 is below 60.5 and rounds to
60; and for the decimal 0.285 the code prints 28 where 28.5 rounds to 29. -/
theorem exportAsPdf_percent_off_by_one :
    toDouble (1362338887279575 / 2251799813685248) = 1362338887279575 / 2251799813685248
    ∧ pdfFrameLine { frame := 0, timestamp := 0, is_violent := false,
                     confidence := 1362338887279575 / 2251799813685248 }
        = "00:00: Safe (61%)"
    ∧ mathRound (1362338887279575 / 2251799813685248 * 100) = 60
    ∧ roundedPercent (285 / 1000) = 28
    ∧ mathRound (285 / 1000 * 100) = 29 := by
  decide!

/-- C11, amended: the text report is the summary (the report of the same result
without frame results) followed, when there is at least one frame result, by the
heading and one line per frame result in the order received, each line being
`formatTime` of the floored timestamp, a colon, `Violence` or `Safe` according to
the frame's flag, and in brackets the percent `NN`, which is `Math.round` of the
binary64 product `confidence * 100`: the integer within one half of that product,
halves going up.  With no frame results (missing or empty) nothing follows the
summary.  The frame `{timestamp: 0, is_violent: false, confidence: 0.1}` gives the
line `00:00: Safe (10%)`. -/
theorem exportAsPdf_frame_lines (generated : String) (formatFileSize : Nat → String)
    (selectedFile : Option File) (results : AnalysisResult) :
    exportAsPdf generated formatFileSize selectedFile results
      = exportAsPdf generated formatFileSize selectedFile { results with frame_results := none }
        ++ (if results.frame_results.getD [] = [] then ""
            else "Frame-by-Frame Results:\n"
              ++ joinLines ((results.frame_results.getD []).map pdfFrameLine))
    ∧ (∀ frame : FrameResult, pdfFrameLine frame
        = formatTime (Rat.floor (toDouble frame.timestamp)) ++ ": "
          ++ (if frame.is_violent then "Violence" else "Safe")
          ++ " (" ++ intToString (roundedPercent frame.confidence) ++ "%)")
    ∧ (∀ frame : FrameResult,
        (frame.is_violent = true → pdfFrameLine frame
          = formatTime (Rat.floor (toDouble frame.timestamp)) ++ ": Violence ("
            ++ intToString (roundedPercent frame.confidence) ++ "%)")
        ∧ (frame.is_violent = false → pdfFrameLine frame
          = formatTime (Rat.floor (toDouble frame.timestamp)) ++ ": Safe ("
            ++ intToString (roundedPercent frame.confidence) ++ "%)"))
    ∧ (∀ confidence : Rat,
        (roundedPercent confidence : Rat) - 1 / 2 ≤ toDouble (toDouble confidence * 100)
        ∧ toDouble (toDouble confidence * 100) < (roundedPercent confidence : Rat) + 1 / 2)
    ∧ pdfFrameLine { frame := 0, timestamp := 0, is_violent := false, confidence := 1 / 10 }
        = "00:00: Safe (10%)" := by
  refine ⟨?_, fun _ => rfl, ?_, fun confidence => mathRound_nearest _, by decide!⟩
  · cases h : results.frame_results with
    | none =>
      simp only [exportAsPdf, h, Option.getD_none, if_true, String.append_empty]
    | some frames =>
      cases frames with
      | nil =>
        simp only [exportAsPdf, h, Option.getD_some, List.length_nil, gt_iff_lt, Nat.lt_irrefl,
          if_true, if_false, String.append_empty]
      | cons frame frames =>
        have hne : (frame :: frames) ≠ [] := List.cons_ne_nil _ _
        have hpos : (frame :: frames).length > 0 := Nat.succ_pos _
        simp only [exportAsPdf, h, Option.getD_some, hpos, hne, if_true, if_false,
          foldl_pdf_lines]
        simp only [String.append_assoc]
  · intro frame
    constructor
    · intro hv
      simp only [pdfFrameLine, hv, if_true, String.append_assoc]
      rfl
    · intro hv
      simp only [pdfFrameLine, hv, Bool.false_eq_true, if_false, String.append_assoc]
      rfl

/-- C11, amended, at a violent frame at 75.5 s with confidence 0.9, and at a safe
frame. -/
theorem exportAsPdf_frame_lines_witness :
    pdfFrameLine { frame := 3, timestamp := 151 / 2, is_violent := true, confidence := 9 / 10 }
      = formatTime (Rat.floor (toDouble (151 / 2))) ++ ": Violence ("
          ++ intToString (roundedPercent (9 / 10)) ++ "%)"
    ∧ pdfFrameLine { frame := 0, timestamp := 0, is_violent := false, confidence := 1 / 10 }
      = formatTime (Rat.floor (toDouble 0)) ++ ": Safe ("
          ++ intToString (roundedPercent (1 / 10)) ++ "%)" :=
  ⟨((exportAsPdf_frame_lines "" (fun _ => "") none
      { total_frames := 0, analyzed_frames := 0, violent_frames := 0, violence_percentage := 0,
        is_violent_video := false, frame_results := none }).2.2.1
      { frame := 3, timestamp := 151 / 2, is_violent := true, confidence := 9 / 10 }).1 rfl,
   ((exportAsPdf_frame_lines "" (fun _ => "") none
      { total_frames := 0, analyzed_frames := 0, violent_frames := 0, violence_percentage := 0,
        is_violent_video := false, frame_results := none }).2.2.1
      { frame := 0, timestamp := 0, is_violent := false, confidence := 1 / 10 }).2 rfl⟩

end Upload

namespace Upload

/-! ## JSON report -/

/-- C12: the object built for the JSON export carries the result's five summary
fields unchanged and its frame results unchanged in order and content, the empty
list standing for missing frame results; reading the report back gives the result
again (with an empty list where frame results were missing). -/
theorem exportAsJson_mirrors (analysisDate : String) (selectedFile : Option File)
    (results : AnalysisResult) (frames : List FrameResult) :
    (exportAsJson analysisDate selectedFile results).analysis_info.total_frames
      = results.total_frames
    ∧ (exportAsJson analysisDate selectedFile results).analysis_info.analyzed_frames
      = results.analyzed_frames
    ∧ (exportAsJson analysisDate selectedFile results).analysis_info.violent_frames
      = results.violent_frames
    ∧ (exportAsJson analysisDate selectedFile results).analysis_info.violence_percentage
      = results.violence_percentage
    ∧ (exportAsJson analysisDate selectedFile results).analysis_info.is_violent_video
      = results.is_violent_video
    ∧ (exportAsJson analysisDate selectedFile results).frame_results
      = results.frame_results.getD []
    ∧ (exportAsJson analysisDate selectedFile
        { results with frame_results := (some frames) }).frame_results = frames
    ∧ (exportAsJson analysisDate selectedFile
        { results with frame_results := none }).frame_results = []
    ∧ (exportAsJson analysisDate selectedFile
        { results with frame_results := (some frames) }).toAnalysisResult
      = { results with frame_results := (some frames) }
    ∧ (exportAsJson analysisDate selectedFile results).toAnalysisResult
      = { results with frame_results := (some (results.frame_results.getD [])) } := by
  refine ⟨rfl, rfl, rfl, rfl, rfl, ?_, rfl, rfl, rfl, ?_⟩
  · cases h : results.frame_results <;> simp [exportAsJson, h]
  · cases h : results.frame_results <;> simp [exportAsJson, ReportData.toAnalysisResult, h]

end Upload

namespace Live

/-! ## Starting -/

/-- C14: when `startDetection` fails (permission refused, response not 2xx, or
transport failure) the state is what it was except for one more notification, the
error: the active flag, the session start time, the total-detections counter and
the results buffer are unchanged, no interval and no poll is started, and an Idle
controller stays Idle. -/
theorem startDetection_failure_no_mutation (s : LiveState) (attempt : StartAttempt)
    (hfail : attempt ≠ StartAttempt.accepted) :
    startDetection s attempt.succeeds
      = { s with notifications := s.notifications ++
            [{ message := "Failed to start detection. Please check camera permissions.",
               kind := NotificationKind.error }] }
    ∧ (startDetection s attempt.succeeds).isDetectionActive = s.isDetectionActive
    ∧ (startDetection s attempt.succeeds).sessionStartTime = s.sessionStartTime
    ∧ (startDetection s attempt.succeeds).totalDetections = s.totalDetections
    ∧ (startDetection s attempt.succeeds).detectionResultsBuffer = s.detectionResultsBuffer
    ∧ (startDetection s attempt.succeeds).sessionTimer = s.sessionTimer
    ∧ (startDetection s attempt.succeeds).runningIntervals = s.runningIntervals
    ∧ (startDetection s attempt.succeeds).pollsInFlight = s.pollsInFlight
    ∧ (startDetection s attempt.succeeds).pollTimers = s.pollTimers
    ∧ (startDetection s attempt.succeeds).statusIndicator = s.statusIndicator
    ∧ (startDetection s attempt.succeeds).startBtnDisplay = s.startBtnDisplay := by
  have h : attempt.succeeds = false := by
    cases attempt
    · rfl
    · rfl
    · rfl
    · exact absurd rfl hfail
  rw [h]
  exact ⟨rfl, rfl, rfl, rfl, rfl, rfl, rfl, rfl, rfl, rfl, rfl⟩

/-- C14 on the freshly loaded page with the camera permission refused: still not
active, nothing in flight, one error notification. -/
theorem startDetection_failure_no_mutation_witness :
    StartAttempt.permissionRefused ≠ StartAttempt.accepted
    ∧ startDetection (pageLoad blankPage) StartAttempt.permissionRefused.succeeds
      = { pageLoad blankPage with notifications := (pageLoad blankPage).notifications ++
            [{ message := "Failed to start detection. Please check camera permissions.",
               kind := NotificationKind.error }] } :=
  ⟨by decide,
   (startDetection_failure_no_mutation (pageLoad blankPage) StartAttempt.permissionRefused
      (by decide)).1⟩

/-! ## Violence alert -/

/-- A rounded percent above 80 needs a confidence above 0.8. -/
theorem mathRound_gt_eighty (c : Rat) (h : 80 < mathRound (c * 100)) : 8 / 10 < c := by
  have h1 : (81 : Int) ≤ Rat.floor (c * 100 + 1 / 2) := h
  rw [Rat.le_floor] at h1
  have h2 : ((81 : Int) : Rat) = 81 := by norm_num
  rw [h2] at h1
  linarith

/-- C16: whenever `updateDetectionResults` sets the alert level to Critical for the
latest result of a batch, that result is violent with confidence above 0.8 and
the same call shows the violence alert (overlay displayed, its timeout armed). -/
theorem critical_level_shows_alert (s : LiveState) (earlier : List DetectionResult)
    (latest : DetectionResult) (total : Option Nat)
    (hcritical : (updateDetectionResults s
        { results := some (earlier ++ [latest]), total_detections := total }).alertLevel
      = AlertLevel.Critical) :
    latest.is_violent = true
    ∧ 80 < mathRound (latest.confidence * 100)
    ∧ 8 / 10 < latest.confidence
    ∧ (updateDetectionResults s
        { results := some (earlier ++ [latest]), total_detections := total }).alertOverlayDisplay
      = Display.flex
    ∧ (updateDetectionResults s
        { results := some (earlier ++ [latest]), total_detections := total }).alertTimers
      = s.alertTimers ++ [s.now + 10000] := by
  have hlast : (earlier ++ [latest]).getLast? = some latest := by simp
  have hlevel : (updateDetectionResults s
        { results := some (earlier ++ [latest]), total_detections := total }).alertLevel
      = (alertLevelOf (mathRound (latest.confidence * 100)) latest.is_violent).1 := by
    unfold updateDetectionResults
    simp only [hlast]
    split_ifs <;> rfl
  rw [hlevel] at hcritical
  have hv : latest.is_violent = true ∧ 80 < mathRound (latest.confidence * 100) := by
    unfold alertLevelOf at hcritical
    cases hvi : latest.is_violent <;> simp only [hvi] at hcritical <;>
      split_ifs at hcritical <;> simp_all
  have hc := mathRound_gt_eighty latest.confidence hv.2
  refine ⟨hv.1, hv.2, hc, ?_, ?_⟩
  · unfold updateDetectionResults
    simp only [hlast, hv.1, hc, gt_iff_lt, decide_True, Bool.and_self, if_true]
    rfl
  · unfold updateDetectionResults
    simp only [hlast, hv.1, hc, gt_iff_lt, decide_True, Bool.and_self, if_true]
    rfl

/-- C16 at a violent result of confidence 0.9 on the freshly loaded page: the level
is Critical and the overlay is displayed. -/
theorem critical_level_shows_alert_witness :
    (updateDetectionResults (pageLoad blankPage)
        { results := some ([] ++ [{ confidence := 9 / 10, is_violent := true, timestamp := 0 }]),
          total_detections := none }).alertLevel = AlertLevel.Critical
    ∧ (updateDetectionResults (pageLoad blankPage)
        { results := some ([] ++ [{ confidence := 9 / 10, is_violent := true, timestamp := 0 }]),
          total_detections := none }).alertOverlayDisplay = Display.flex :=
  ⟨by decide!,
   (critical_level_shows_alert (pageLoad blankPage) []
      { confidence := 9 / 10, is_violent := true, timestamp := 0 } none (by decide!)).2.2.2.1⟩

/-- C13, the code at a failing history: an alert shown at 0 ms is acknowledged at
5000 ms, the poll issued at 500 ms answers at 7000 ms and shows a second alert,
and at 10000 ms the timeout armed for the first alert dismisses the second, 3 s
after it appeared and with its own timeout (due at 17000 ms) still pending. -/
theorem stale_alert_timer_dismisses_later_alert :
    (run (pageLoad blankPage)
        [LiveEvent.startSettled true,
         LiveEvent.pollResponse
           { results := some [{ confidence := 9 / 10, is_violent := true, timestamp := 0 }],
             total_detections := some 1 },
         LiveEvent.advance 500, LiveEvent.pollTimer 500, LiveEvent.advance 4500,
         LiveEvent.acknowledge, LiveEvent.advance 2000,
         LiveEvent.pollResponse
           { results := some [{ confidence := 9 / 10, is_violent := true, timestamp := 7 }],
             total_detections := some 2 }]).map
        (fun s => (s.now, s.alertOverlayDisplay, s.alertTimers))
      = some (7000, Display.flex, [10000, 17000])
    ∧ (run (pageLoad blankPage)
        [LiveEvent.startSettled true,
         LiveEvent.pollResponse
           { results := some [{ confidence := 9 / 10, is_violent := true, timestamp := 0 }],
             total_detections := some 1 },
         LiveEvent.advance 500, LiveEvent.pollTimer 500, LiveEvent.advance 4500,
         LiveEvent.acknowledge, LiveEvent.advance 2000,
         LiveEvent.pollResponse
           { results := some [{ confidence := 9 / 10, is_violent := true, timestamp := 7 }],
             total_detections := some 2 },
         LiveEvent.advance 3000, LiveEvent.alertTimer 10000]).map
        (fun s => (s.now, s.alertOverlayDisplay, s.alertTimers))
      = some (10000, Display.none, [17000]) := by
  decide!

end Live

end ViolenceDetection
